import Mathlib

/-!
# Excel analysis platform: ingestion and analysis pipeline

A shallow embedding of `server.js` (the Express routes `/api/register`,
`/api/upload`, `/api/analyze`, `DELETE /api/analysis/:id`, `/api/admin/users`
and `/api/admin/usage`, the two access-gate middlewares and
`getBackgroundColor`) together with the Mongoose schemas `Analysis.js` and
`FileUpload.js`.

Modelling conventions.

* The document store is explicit state: three collections kept as lists in
  insertion order, plus the upload directory.  Every handler is a function
  from the state before the request to the response and the state after it.
* The workbook reader (`xlsx.readFile` followed by `sheet_to_json` on the first
  sheet) is a collaborator of the program: a stored file is represented by the
  two arrays the program obtains from it, the positional one
  (`{ header: 1 }`) and the keyed one.
* An exception thrown inside a handler's `try` block is an explicit branch that
  produces the `catch` block's response.
* Request body fields are optional strings; `none` is an absent field.  The
  truthiness tests of the source (`!x`, `a || b`) are spelled out on them.
  Bodies that carry numbers, arrays or objects in these fields are outside the
  model.
* Generated ids and clock readings are inputs of the request that needs them.
-/

namespace ExcelAnalysis

/-! ## Data model -/

/-- Identifier of a stored document (`_id`). -/
abbrev ObjectId := Nat

/-- A spreadsheet cell value as delivered by the workbook reader.  `num n` is
a numeric cell holding the whole number `n`. -/
inductive Cell where
  | str (s : String)
  | num (n : Int)
  | bool (b : Bool)
  deriving DecidableEq, Repr

/-- One row of `sheet_to_json(ws, { header: 1 })`: a positional array; `none`
is a hole left by an empty cell to the left of a filled one. -/
abbrev Row := List (Option Cell)

/-- One row of `sheet_to_json(ws)`: the own properties of the row object.
These are the cells, keyed by column name, and the property `__rowNum__` that
the reader defines on every row object it returns: the index of the row in the
sheet, non-enumerable and read-only, so that it is absent from the JSON of the
row but seen by `hasOwnProperty` and by the read `row['__rowNum__']`.  Column
names are taken not to collide with the members every object inherits
(`hasOwnProperty`, `toString`, ...). -/
structure Record where
  /-- The own property `__rowNum__`. -/
  rowNum : Nat
  /-- The cells of the row, keyed by column name. -/
  cells : List (String × Cell)
  deriving DecidableEq, Repr

/-- The first worksheet of a stored workbook, seen through the two calls the
server makes on it. -/
structure Worksheet where
  /-- Result of `sheet_to_json(worksheet, { header: 1 })`. -/
  rows : List Row
  /-- Result of `sheet_to_json(worksheet)`. -/
  records : List Record
  deriving DecidableEq, Repr

/-- The payload of a verified token, `{ userId, email, role }`. -/
structure Subject where
  userId : ObjectId
  email : String
  role : String
  deriving DecidableEq, Repr

/-- Modelled from the spec: the schema `models/User.js` is not part of the
sources at hand.  A user document is the identity record of the data model
(unique email, name, salted password hash, role `admin` or `user`, creation
timestamp), with the field names `server.js` uses for it. -/
structure UserDoc where
  _id : ObjectId
  email : String
  password : String
  name : String
  role : String
  createdAt : Nat
  deriving DecidableEq, Repr

/-- A document of the `FileUpload` collection (`FileUpload.js`).  `headers` is
declared `[String]`: it holds strings, and `none` where the array handed to
the document had a hole. -/
structure FileUploadDoc where
  _id : ObjectId
  userId : ObjectId
  filename : String
  originalName : String
  path : String
  headers : List (Option String)
  rowCount : Nat
  fileSize : Nat
  uploadedAt : Nat
  analyses : List ObjectId
  deriving DecidableEq, Repr

/-- The value of `backgroundColor`: one colour string, an array of colour
strings, or (for a chart type that names a member of `Object.prototype`) the
inherited member found by the lookup `colors[chartType]`. -/
inductive BackgroundColor where
  | single (c : String)
  | palette (cs : List String)
  | inherited (name : String)
  deriving DecidableEq, Repr

/-- One entry of `chartData.datasets`. -/
structure Dataset where
  label : String
  data : List (Option Cell)
  backgroundColor : BackgroundColor
  borderColor : String
  borderWidth : Nat
  deriving DecidableEq, Repr

/-- The chart payload built by `/api/analyze`. -/
structure ChartData where
  labels : List (Option Cell)
  datasets : List Dataset
  deriving DecidableEq, Repr

/-- A document of the `Analysis` collection (`Analysis.js`). -/
structure AnalysisDoc where
  _id : ObjectId
  userId : ObjectId
  fileId : ObjectId
  chartType : String
  xAxis : String
  yAxis : String
  chartTitle : String
  chartData : ChartData
  createdAt : Nat
  deriving DecidableEq, Repr

/-- The state the server works on: the three collections and the upload
directory.  A path bound to `none`, or not bound at all, is a file the workbook
reader cannot open. -/
structure Store where
  users : List UserDoc := []
  files : List FileUploadDoc := []
  analyses : List AnalysisDoc := []
  disk : List (String × Option Worksheet) := []
  deriving DecidableEq, Repr

/-- What the environment supplies to a request that creates a document: the
generated `_id` and the clock reading used for the timestamp default. -/
structure Env where
  newId : ObjectId
  now : Nat
  deriving DecidableEq, Repr

/-! ## Responses -/

/-- An exception caught by a handler's `catch` block. -/
inductive Exception where
  /-- `xlsx.readFile` could not open the path. -/
  | readError (path : String)
  /-- A string that is not an object id was used where one is required. -/
  | castError (raw : String)
  /-- `save()` rejected the document: schema validation failed on `field`. -/
  | validationError (field : String)
  deriving DecidableEq, Repr

/-- A user document as the admin listing returns it: every field but the
password. -/
structure UserView where
  _id : ObjectId
  email : String
  name : String
  role : String
  createdAt : Nat
  deriving DecidableEq, Repr

/-- A user document after `.select('name email createdAt')`: the selected
fields and the `_id`. -/
structure RecentUser where
  _id : ObjectId
  name : String
  email : String
  createdAt : Nat
  deriving DecidableEq, Repr

/-- The `user` member of the registration response. -/
structure UserInfo where
  id : ObjectId
  email : String
  name : String
  role : String
  deriving DecidableEq, Repr

/-- The JSON body of a response. -/
inductive Body where
  /-- Body `{ message }`. -/
  | message (m : String)
  /-- Body `{ message: lead + error.message }` sent by a `catch` block. -/
  | failure (lead : String) (cause : Exception)
  /-- Success body of `/api/upload`. -/
  | uploaded (fileId : ObjectId) (headers : Row) (data : List Row) (totalRows : Nat)
  /-- Success body of `/api/analyze`. -/
  | analysis (analysisId : ObjectId) (chartData : ChartData) (chartType : String)
      (chartTitle : String) (xAxis : String) (yAxis : String)
  /-- Success body of `/api/admin/users`. -/
  | users (list : List UserView)
  /-- Success body of `/api/admin/usage`. -/
  | usage (totalUsers : Nat) (totalFiles : Nat) (totalAnalyses : Nat) (totalStorage : Nat)
      (recentUsers : List RecentUser)
  /-- Success body of `/api/register`: `{ token, user: { id, email, name, role } }`. -/
  | registered (token : String) (user : UserInfo)
  deriving DecidableEq, Repr

/-- An HTTP response: status code and JSON body (`res.json` alone is 200). -/
structure Response where
  status : Nat
  body : Body
  deriving DecidableEq, Repr

/-! ## Access gate (`authenticateToken`, `requireAdmin`) -/

/-- JavaScript `s.split(sep)` for a one-character separator, on the characters
of the string. -/
def splitOnChar (sep : Char) : List Char → List (List Char)
  | [] => [[]]
  | c :: cs =>
    match splitOnChar sep cs with
    | [] => [[c]]
    | w :: ws => if c = sep then [] :: w :: ws else (c :: w) :: ws

/-- The expression `authHeader && authHeader.split(' ')[1]`: `none` is
`undefined`. -/
def bearerToken (authHeader : Option String) : Option String :=
  match authHeader with
  | none => none
  | some h =>
    if h = "" then some ""
    else ((splitOnChar ' ' h.toList)[1]?).map String.mk

/-- Middleware `authenticateToken`: either a response is sent, or `req.user`
is set to the verified subject and `next()` is called.  `verify` stands for
`jwt.verify` with the configured secret (`none`: the callback receives an
error). -/
def authenticateToken (verify : String → Option Subject)
    (authHeader : Option String) : Except Response Subject :=
  match bearerToken authHeader with
  | none => .error ⟨401, .message "Access token required"⟩
  | some token =>
    if token = "" then .error ⟨401, .message "Access token required"⟩
    else
      match verify token with
      | none => .error ⟨403, .message "Invalid token"⟩
      | some user => .ok user

/-- Middleware `requireAdmin`, run on `req.user`. -/
def requireAdmin (user : Subject) : Except Response Subject :=
  if user.role ≠ "admin" then .error ⟨403, .message "Admin access required"⟩
  else .ok user

/-- The middleware chain in front of a protected route: `authenticateToken`,
followed by `requireAdmin` on the admin routes. -/
def gate (verify : String → Option Subject) (adminOnly : Bool)
    (authHeader : Option String) : Except Response Subject :=
  match authenticateToken verify authHeader with
  | .error r => .error r
  | .ok user => if adminOnly then requireAdmin user else .ok user

/-- A route registered behind the gate: the handler runs only when every
middleware called `next()`. -/
def protectedRoute (verify : String → Option Subject) (adminOnly : Bool)
    (handler : Subject → Store → Response × Store)
    (authHeader : Option String) (s : Store) : Response × Store :=
  match gate verify adminOnly authHeader with
  | .error r => (r, s)
  | .ok user => handler user s

/-! ## Upload (`POST /api/upload`) -/

/-- The `req.file` object left by the upload middleware. -/
structure MulterFile where
  filename : String
  originalname : String
  path : String
  size : Nat
  deriving DecidableEq, Repr

/-- The cast of a cell to the schema type `String`: a string is kept, a number
becomes its decimal numeral, a boolean becomes `true` or `false`. -/
def castString : Cell → String
  | .str s => s
  | .num n => toString n
  | .bool b => if b then "true" else "false"

/-- The cast applied to `headers` when the document is built, under the
declaration `headers: [String]` of `FileUpload.js`: each cell is cast to a
string, a hole stays an empty entry. -/
def castHeaders (row : Row) : List (Option String) :=
  row.map (fun cell => cell.map castString)

/-- Reading a workbook with `xlsx.readFile(path)` and taking its first sheet;
`none` when the call throws. -/
def readFile (disk : List (String × Option Worksheet)) (path : String) :
    Option Worksheet :=
  (disk.lookup path).join

/-- Handler of `POST /api/upload`, after the upload middleware has stored the
file.  The storage engine always supplies `filename`, `originalname` and
`path`, so the schema's `required` validators pass and `save()` inserts the
document.  The document holds the header row cast to strings; the response
carries the local `headers`, the row as parsed. -/
def uploadHandler (user : Subject) (file : Option MulterFile) (env : Env)
    (s : Store) : Response × Store :=
  match file with
  | none => (⟨400, .message "No file uploaded"⟩, s)
  | some f =>
    match readFile s.disk f.path with
    | none => (⟨500, .failure "Error processing file: " (.readError f.path)⟩, s)
    | some worksheet =>
      let data := worksheet.rows
      match data with
      | [] => (⟨400, .message "Excel file is empty"⟩, s)
      | headers :: _ =>
        let rows := (data.drop 1).filter (fun row => decide (row.length > 0))
        let fileUpload : FileUploadDoc :=
          { _id := env.newId
            userId := user.userId
            filename := f.filename
            originalName := f.originalname
            path := f.path
            headers := castHeaders headers
            rowCount := rows.length
            fileSize := f.size
            uploadedAt := env.now
            analyses := [] }
        (⟨200, .uploaded fileUpload._id headers (rows.take 10) rows.length⟩,
          { s with files := s.files ++ [fileUpload] })

/-! ## Analysis (`POST /api/analyze`) -/

/-- An id taken from the request, classified by the cast to an object id that
the query layer performs on it. -/
inductive IdArg where
  /-- A non-empty string that is the text of the object id `id`. -/
  | valid (id : ObjectId)
  /-- A string that is not the text of any object id. -/
  | malformed (raw : String)
  deriving DecidableEq, Repr

/-- The body of `POST /api/analyze`. -/
structure AnalyzeBody where
  fileId : Option IdArg
  chartType : Option String
  xAxis : Option String
  yAxis : Option String
  chartTitle : Option String
  deriving DecidableEq, Repr

/-- JavaScript truthiness of an optional string field. -/
def truthy : Option String → Bool
  | none => false
  | some v => v != ""

/-- JavaScript truthiness of the `fileId` field. -/
def truthyId : Option IdArg → Bool
  | none => false
  | some (.valid _) => true
  | some (.malformed raw) => raw != ""

/-- The string a field holds (`""` when absent); used after `truthy`. -/
def fieldValue : Option String → String
  | none => ""
  | some v => v

/-- JavaScript `a || b` on an optional string and a string. -/
def orElse (a : Option String) (b : String) : String :=
  if truthy a then fieldValue a else b

/-- The five colours shared by the `doughnut` and `pie` entries. -/
def palette5 : List String :=
  [ "rgba(255, 99, 132, 0.6)",
    "rgba(54, 162, 235, 0.6)",
    "rgba(255, 206, 86, 0.6)",
    "rgba(75, 192, 192, 0.6)",
    "rgba(153, 102, 255, 0.6)" ]

/-- Names every object literal inherits from `Object.prototype`. -/
def objectPrototypeMembers : List String :=
  [ "constructor", "__proto__", "hasOwnProperty", "isPrototypeOf",
    "propertyIsEnumerable", "toLocaleString", "toString", "valueOf",
    "__defineGetter__", "__defineSetter__", "__lookupGetter__",
    "__lookupSetter__" ]

/-- Helper `getBackgroundColor(chartType)`: `colors[chartType] || default`. -/
def getBackgroundColor (chartType : String) : BackgroundColor :=
  if chartType = "bar" then .single "rgba(54, 162, 235, 0.6)"
  else if chartType = "line" then .single "rgba(255, 99, 132, 0.6)"
  else if chartType = "scatter" then .single "rgba(75, 192, 192, 0.6)"
  else if chartType = "bubble" then .single "rgba(153, 102, 255, 0.6)"
  else if chartType = "radar" then .single "rgba(255, 159, 64, 0.6)"
  else if chartType = "doughnut" then .palette palette5
  else if chartType = "pie" then .palette palette5
  else if chartType ∈ objectPrototypeMembers then .inherited chartType
  else .single "rgba(54, 162, 235, 0.6)"

/-- The `enum` of `analysisSchema.chartType`. -/
def chartTypeEnum : List String :=
  ["bar", "line", "scatter", "bubble", "radar", "doughnut", "pie"]

/-- Call `row.hasOwnProperty(key)` on a record. -/
def hasOwnProperty (row : Record) (key : String) : Bool :=
  key == "__rowNum__" || (row.cells.lookup key).isSome

/-- Read `row[key]` on a record; `none` is `undefined`.  The property
`__rowNum__` is read-only, so it holds the row index even when a column has
that name. -/
def getProp (row : Record) (key : String) : Option Cell :=
  if key = "__rowNum__" then some (.num row.rowNum) else row.cells.lookup key

/-- Query `FileUpload.findOne({ _id, userId })`. -/
def findOneFile (files : List FileUploadDoc) (id userId : ObjectId) :
    Option FileUploadDoc :=
  files.find? (fun f => f._id == id && f.userId == userId)

/-- Query `Analysis.findOne({ _id, userId })`. -/
def findOneAnalysis (analyses : List AnalysisDoc) (id userId : ObjectId) :
    Option AnalysisDoc :=
  analyses.find? (fun a => a._id == id && a.userId == userId)

/-- Update `FileUpload.findByIdAndUpdate(fileId, { $push: { analyses: id } })`:
the document with that `_id` gets `id` appended to its list. -/
def pushAnalysis (fileId analysisId : ObjectId) :
    List FileUploadDoc → List FileUploadDoc
  | [] => []
  | f :: fs =>
    if f._id = fileId then { f with analyses := f.analyses ++ [analysisId] } :: fs
    else f :: pushAnalysis fileId analysisId fs

/-- Validation run by `analysis.save()`: the first schema path of `Analysis.js`
that rejects the document, if any (`required` on the string paths, `enum` on
`chartType`). -/
def analysisInvalidPath (a : AnalysisDoc) : Option String :=
  if a.chartType = "" then some "chartType"
  else if a.chartType ∉ chartTypeEnum then some "chartType"
  else if a.xAxis = "" then some "xAxis"
  else if a.yAxis = "" then some "yAxis"
  else none

/-- Handler of `POST /api/analyze`. -/
def analyzeHandler (user : Subject) (body : AnalyzeBody) (env : Env)
    (s : Store) : Response × Store :=
  if !truthyId body.fileId || !truthy body.chartType || !truthy body.xAxis
      || !truthy body.yAxis then
    (⟨400, .message "Missing required fields"⟩, s)
  else
    let chartType := fieldValue body.chartType
    let xAxis := fieldValue body.xAxis
    let yAxis := fieldValue body.yAxis
    match body.fileId with
    | none => (⟨400, .message "Missing required fields"⟩, s)
    | some (.malformed raw) =>
      (⟨500, .failure "Error generating analysis: " (.castError raw)⟩, s)
    | some (.valid fileId) =>
      match findOneFile s.files fileId user.userId with
      | none => (⟨404, .message "File not found"⟩, s)
      | some fileUpload =>
        match readFile s.disk fileUpload.path with
        | none =>
          (⟨500, .failure "Error generating analysis: "
            (.readError fileUpload.path)⟩, s)
        | some worksheet =>
          let data := worksheet.records
          match data with
          | [] => (⟨400, .message "No data available for analysis"⟩, s)
          | first :: _ =>
            if !hasOwnProperty first xAxis || !hasOwnProperty first yAxis then
              (⟨400, .message "Selected columns not found in data"⟩, s)
            else
              let chartData : ChartData :=
                { labels := data.map (fun row => getProp row xAxis)
                  datasets :=
                    [ { label := yAxis
                        data := data.map (fun row => getProp row yAxis)
                        backgroundColor := getBackgroundColor chartType
                        borderColor := "rgba(54, 162, 235, 1)"
                        borderWidth := 1 } ] }
              let analysis : AnalysisDoc :=
                { _id := env.newId
                  userId := user.userId
                  fileId := fileId
                  chartType := chartType
                  xAxis := xAxis
                  yAxis := yAxis
                  chartTitle := orElse body.chartTitle (yAxis ++ " vs " ++ xAxis)
                  chartData := chartData
                  createdAt := env.now }
              match analysisInvalidPath analysis with
              | some field =>
                (⟨500, .failure "Error generating analysis: "
                  (.validationError field)⟩, s)
              | none =>
                (⟨200, .analysis analysis._id chartData chartType
                    analysis.chartTitle xAxis yAxis⟩,
                  { s with
                    analyses := s.analyses ++ [analysis]
                    files := pushAnalysis fileId analysis._id s.files })

/-! ## Deleting an analysis (`DELETE /api/analysis/:id`) -/

/-- Handler of `DELETE /api/analysis/:id`. -/
def deleteAnalysisHandler (user : Subject) (id : IdArg) (s : Store) :
    Response × Store :=
  match id with
  | .malformed _ => (⟨500, .message "Error deleting analysis"⟩, s)
  | .valid analysisId =>
    match findOneAnalysis s.analyses analysisId user.userId with
    | none => (⟨404, .message "Analysis not found"⟩, s)
    | some _ =>
      (⟨200, .message "Analysis deleted successfully"⟩,
        { s with analyses := s.analyses.eraseP (fun a => a._id == analysisId) })

/-! ## Routes -/

/-- Route `app.post('/api/upload', authenticateToken, upload.single('file'), ...)`,
with `file` the `req.file` left by the upload middleware. -/
def postUpload (verify : String → Option Subject) (authHeader : Option String)
    (file : Option MulterFile) (env : Env) (s : Store) : Response × Store :=
  protectedRoute verify false (fun user s => uploadHandler user file env s) authHeader s

/-- Route `app.post('/api/analyze', authenticateToken, ...)`. -/
def postAnalyze (verify : String → Option Subject) (authHeader : Option String)
    (body : AnalyzeBody) (env : Env) (s : Store) : Response × Store :=
  protectedRoute verify false (fun user s => analyzeHandler user body env s) authHeader s

/-- Route `app.delete('/api/analysis/:id', authenticateToken, ...)`. -/
def deleteAnalysisRoute (verify : String → Option Subject) (authHeader : Option String)
    (id : IdArg) (s : Store) : Response × Store :=
  protectedRoute verify false (fun user s => deleteAnalysisHandler user id s) authHeader s

/-- Handler of `GET /api/admin/users`: `User.find({}, '-password')`. -/
def adminUsersHandler (_user : Subject) (s : Store) : Response × Store :=
  (⟨200, .users (s.users.map (fun u =>
      { _id := u._id, email := u.email, name := u.name, role := u.role,
        createdAt := u.createdAt }))⟩, s)

/-- Route `app.get('/api/admin/users', authenticateToken, requireAdmin, ...)`. -/
def getAdminUsers (verify : String → Option Subject) (authHeader : Option String)
    (s : Store) : Response × Store :=
  protectedRoute verify true adminUsersHandler authHeader s

/-! ## Usage statistics (`GET /api/admin/usage`) -/

/-- The order of `.sort({ createdAt: -1 })`: documents created later come
first. -/
def newerFirst (a b : UserDoc) : Prop := b.createdAt ≤ a.createdAt

instance : DecidableRel newerFirst :=
  fun a b => inferInstanceAs (Decidable (b.createdAt ≤ a.createdAt))

instance : IsTotal UserDoc newerFirst := ⟨fun a b => Nat.le_total b.createdAt a.createdAt⟩

instance : IsTrans UserDoc newerFirst := ⟨fun _ _ _ hab hbc => Nat.le_trans hbc hab⟩

/-- Pipeline `FileUpload.aggregate([{ $group: { _id: null, totalSize: { $sum:
'$fileSize' } } }])`: the `totalSize` of the single group when the collection
holds a document, no group when it holds none. -/
def aggregateTotalSize (files : List FileUploadDoc) : List Nat :=
  match files with
  | [] => []
  | _ :: _ => [(files.map (fun f => f.fileSize)).sum]

/-- Query `User.find().sort({ createdAt: -1 }).limit(5).select('name email
createdAt')`.  Documents with equal timestamps keep their insertion order. -/
def findRecentUsers (users : List UserDoc) : List RecentUser :=
  ((users.insertionSort newerFirst).take 5).map (fun u =>
    { _id := u._id, name := u.name, email := u.email, createdAt := u.createdAt })

/-- Handler of `GET /api/admin/usage`. -/
def adminUsageHandler (_user : Subject) (s : Store) : Response × Store :=
  let totalUsers := s.users.length
  let totalFiles := s.files.length
  let totalAnalyses := s.analyses.length
  let storageUsage := aggregateTotalSize s.files
  let recentUsers := findRecentUsers s.users
  let totalStorage :=
    match storageUsage[0]? with
    | none => 0
    | some totalSize => if totalSize = 0 then 0 else totalSize
  (⟨200, .usage totalUsers totalFiles totalAnalyses totalStorage recentUsers⟩, s)

/-- Route `app.get('/api/admin/usage', authenticateToken, requireAdmin, ...)`. -/
def getAdminUsage (verify : String → Option Subject) (authHeader : Option String)
    (s : Store) : Response × Store :=
  protectedRoute verify true adminUsageHandler authHeader s

/-! ## Registration (`POST /api/register`) -/

/-- The body of `POST /api/register`.  The handler reads `email`, `password`
and `name`; whatever else the client sends is kept here to state that it is
not read. -/
structure RegisterBody where
  email : Option String
  password : Option String
  name : Option String
  /-- A `role` member, should the client send one. -/
  role : Option String := none
  /-- Any further members of the body. -/
  others : List (String × String) := []
  deriving DecidableEq, Repr

/-- What registration calls outside `server.js`: `bcrypt.hash(password, 12)`,
the validation `user.save()` runs for the schema of `models/User.js` (a
parameter, as that schema is not part of the sources at hand), and
`jwt.sign` with the configured secret and expiry. -/
structure RegisterDeps where
  hash : String → String
  accepts : UserDoc → Bool
  sign : Subject → String

/-- Handler of `POST /api/register`. -/
def registerHandler (deps : RegisterDeps) (body : RegisterBody) (env : Env)
    (s : Store) : Response × Store :=
  if !truthy body.email || !truthy body.password || !truthy body.name then
    (⟨400, .message "All fields are required"⟩, s)
  else
    let email := fieldValue body.email
    let password := fieldValue body.password
    let name := fieldValue body.name
    match s.users.find? (fun u => u.email == email) with
    | some _ => (⟨400, .message "User already exists"⟩, s)
    | none =>
      let hashedPassword := deps.hash password
      let user : UserDoc :=
        { _id := env.newId
          email := email
          password := hashedPassword
          name := name
          role := if email = "admin@excel.com" then "admin" else "user"
          createdAt := env.now }
      if !deps.accepts user then
        (⟨500, .message "Server error during registration"⟩, s)
      else
        let token := deps.sign { userId := user._id, email := user.email, role := user.role }
        (⟨201, .registered token
            { id := user._id, email := user.email, name := user.name, role := user.role }⟩,
          { s with users := s.users ++ [user] })

/-! ## The pipeline as a transition system -/

/-- A pipeline request that has passed the access gate. -/
inductive Op where
  | upload (user : Subject) (file : Option MulterFile) (env : Env)
  | analyze (user : Subject) (body : AnalyzeBody) (env : Env)
  | deleteAnalysis (user : Subject) (id : IdArg)
  deriving DecidableEq, Repr

/-- Running a pipeline request on a store. -/
def Op.run (s : Store) : Op → Response × Store
  | .upload user file env => uploadHandler user file env s
  | .analyze user body env => analyzeHandler user body env s
  | .deleteAnalysis user id => deleteAnalysisHandler user id s

/-- The `_id` generated while serving a request, for the requests that create
a document. -/
def Op.newId? : Op → Option ObjectId
  | .upload _ _ env => some env.newId
  | .analyze _ _ env => some env.newId
  | .deleteAnalysis _ _ => none

/-- The stores the server can be in: it starts with empty collections, the
upload middleware changes the upload directory, users register, and pipeline
requests are served one after the other. -/
inductive Reachable : Store → Prop where
  | init : Reachable {}
  | stored (s : Store) (disk : List (String × Option Worksheet)) :
      Reachable s → Reachable { s with disk := disk }
  | registered (s : Store) (deps : RegisterDeps) (body : RegisterBody) (env : Env) :
      Reachable s → Reachable (registerHandler deps body env s).2
  | served (s : Store) (op : Op) : Reachable s → Reachable (op.run s).2

/-! ## Named parts of the analyze handler

The handler builds its chart payload and its document inline; the two
definitions below name those expressions so that theorems can refer to them. -/

/-- The chart payload `/api/analyze` builds from the parsed records. -/
def buildChartData (data : List Record) (chartType xAxis yAxis : String) : ChartData :=
  { labels := data.map (fun row => getProp row xAxis)
    datasets :=
      [ { label := yAxis
          data := data.map (fun row => getProp row yAxis)
          backgroundColor := getBackgroundColor chartType
          borderColor := "rgba(54, 162, 235, 1)"
          borderWidth := 1 } ] }

def requiredPresent (body : AnalyzeBody) : Bool :=
  truthyId body.fileId && truthy body.chartType && truthy body.xAxis && truthy body.yAxis

/-- The document `/api/analyze` hands to `save()`. -/
def newAnalysis (user : Subject) (body : AnalyzeBody) (env : Env) (fileId : ObjectId)
    (data : List Record) : AnalysisDoc :=
  { _id := env.newId
    userId := user.userId
    fileId := fileId
    chartType := fieldValue body.chartType
    xAxis := fieldValue body.xAxis
    yAxis := fieldValue body.yAxis
    chartTitle := orElse body.chartTitle (fieldValue body.yAxis ++ " vs " ++ fieldValue body.xAxis)
    chartData := buildChartData data (fieldValue body.chartType) (fieldValue body.xAxis)
      (fieldValue body.yAxis)
    createdAt := env.now }

/-! ## Reading a response -/

/-- The `chartData` member of a response body, when it has one. -/
def Body.chartData? : Body → Option ChartData
  | .analysis _ chartData _ _ _ _ => some chartData
  | _ => none

/-- The `chartTitle` member of a response body, when it has one. -/
def Body.chartTitle? : Body → Option String
  | .analysis _ _ _ chartTitle _ _ => some chartTitle
  | _ => none

/-- The expression `chartData.datasets[0].backgroundColor`. -/
def ChartData.backgroundColor? (chartData : ChartData) : Option BackgroundColor :=
  chartData.datasets.head?.map (fun d => d.backgroundColor)

/-! ## A worked scenario

The three-row sheet `Month`/`Sales`, uploaded by one user; a second user; a
sheet with seven data rows; a sheet that holds a header row only. -/

/-- The sheet with header `Month`, `Sales` and three data rows. -/
def salesSheet : Worksheet :=
  { rows :=
      [ [some (.str "Month"), some (.str "Sales")],
        [some (.str "Jan"), some (.num 100)],
        [some (.str "Feb"), some (.num 150)],
        [some (.str "Mar"), some (.num 120)] ]
    records :=
      [ ⟨1, [("Month", .str "Jan"), ("Sales", .num 100)]⟩,
        ⟨2, [("Month", .str "Feb"), ("Sales", .num 150)]⟩,
        ⟨3, [("Month", .str "Mar"), ("Sales", .num 120)]⟩ ] }

/-- A sheet with seven data rows. -/
def weekSheet : Worksheet :=
  { rows :=
      [ [some (.str "Day"), some (.str "Hits")],
        [some (.str "Mon"), some (.num 1)], [some (.str "Tue"), some (.num 2)],
        [some (.str "Wed"), some (.num 3)], [some (.str "Thu"), some (.num 4)],
        [some (.str "Fri"), some (.num 5)], [some (.str "Sat"), some (.num 6)],
        [some (.str "Sun"), some (.num 7)] ]
    records :=
      [ ⟨1, [("Day", .str "Mon"), ("Hits", .num 1)]⟩, ⟨2, [("Day", .str "Tue"), ("Hits", .num 2)]⟩,
        ⟨3, [("Day", .str "Wed"), ("Hits", .num 3)]⟩, ⟨4, [("Day", .str "Thu"), ("Hits", .num 4)]⟩,
        ⟨5, [("Day", .str "Fri"), ("Hits", .num 5)]⟩, ⟨6, [("Day", .str "Sat"), ("Hits", .num 6)]⟩,
        ⟨7, [("Day", .str "Sun"), ("Hits", .num 7)]⟩ ] }

/-- A sheet that holds the header row `Month`, `Sales` and nothing else. -/
def headerOnlySheet : Worksheet :=
  { rows := [ [some (.str "Month"), some (.str "Sales")] ]
    records := [] }

/-- A sheet with no cell at all. -/
def blankSheet : Worksheet :=
  { rows := []
    records := [] }

/-- A sheet with a header row, a blank row and twelve one-cell data rows. -/
def longSheet : Worksheet :=
  { rows := [some (.str "n")] :: [] :: (List.range 12).map (fun i => [some (.num i)])
    records := (List.range 12).map (fun i => ⟨i + 2, [("n", .num i)]⟩) }

/-- The `req.file` of the upload of the long sheet. -/
def longUpload : MulterFile :=
  { filename := "6-long.xlsx", originalname := "long.xlsx",
    path := "uploads/6-long.xlsx", size := 900 }

/-- A sheet whose header row holds a number, a boolean and a string. -/
def yearSheet : Worksheet :=
  { rows :=
      [ [some (.num 2023), some (.bool true), some (.str "x")],
        [some (.num 1), some (.bool false), some (.str "y")] ]
    records := [ ⟨1, [("2023", .num 1), ("TRUE", .bool false), ("x", .str "y")]⟩ ] }

/-- The `req.file` of the upload of the year sheet. -/
def yearUpload : MulterFile :=
  { filename := "7-year.xlsx", originalname := "year.xlsx",
    path := "uploads/7-year.xlsx", size := 400 }

/-- First user of the scenario. -/
def alice : Subject := { userId := 1, email := "alice@example.com", role := "user" }

/-- Second user of the scenario. -/
def bob : Subject := { userId := 2, email := "bob@example.com", role := "user" }

/-- An administrator. -/
def root : Subject := { userId := 3, email := "admin@excel.com", role := "admin" }

/-- A token verifier that knows two tokens. -/
def demoVerify (token : String) : Option Subject :=
  if token = "alice-token" then some alice
  else if token = "root-token" then some root
  else none

/-- The upload directory of the scenario. -/
def demoDisk : List (String × Option Worksheet) :=
  [ ("uploads/1-sales.xlsx", some salesSheet),
    ("uploads/2-week.xlsx", some weekSheet),
    ("uploads/3-header.xlsx", some headerOnlySheet),
    ("uploads/4-blank.xlsx", some blankSheet),
    ("uploads/5-sales.xlsx", some salesSheet),
    ("uploads/6-long.xlsx", some longSheet),
    ("uploads/7-year.xlsx", some yearSheet) ]

/-- The `req.file` of the upload of the sales sheet. -/
def salesUpload : MulterFile :=
  { filename := "1-sales.xlsx", originalname := "sales.xlsx",
    path := "uploads/1-sales.xlsx", size := 500 }

/-- The `req.file` of the upload of the header-only sheet. -/
def headerOnlyUpload : MulterFile :=
  { filename := "3-header.xlsx", originalname := "header.xlsx",
    path := "uploads/3-header.xlsx", size := 300 }

/-- The `req.file` of the upload of the blank sheet. -/
def blankUpload : MulterFile :=
  { filename := "4-blank.xlsx", originalname := "blank.xlsx",
    path := "uploads/4-blank.xlsx", size := 200 }

/-- The store before any upload is registered. -/
def emptyStore : Store := { disk := demoDisk }

/-- The registered sales sheet, owned by the first user. -/
def salesFile : FileUploadDoc :=
  { _id := 10, userId := 1, filename := "1-sales.xlsx", originalName := "sales.xlsx",
    path := "uploads/1-sales.xlsx",
    headers := [some "Month", some "Sales"],
    rowCount := 3, fileSize := 500, uploadedAt := 1000, analyses := [] }

/-- The registered week sheet, owned by the first user. -/
def weekFile : FileUploadDoc :=
  { _id := 11, userId := 1, filename := "2-week.xlsx", originalName := "week.xlsx",
    path := "uploads/2-week.xlsx",
    headers := [some "Day", some "Hits"],
    rowCount := 7, fileSize := 700, uploadedAt := 1001, analyses := [] }

/-- The registered header-only sheet, owned by the first user. -/
def headerOnlyFile : FileUploadDoc :=
  { _id := 12, userId := 1, filename := "3-header.xlsx", originalName := "header.xlsx",
    path := "uploads/3-header.xlsx",
    headers := [some "Month", some "Sales"],
    rowCount := 0, fileSize := 300, uploadedAt := 1002, analyses := [] }

/-- The store in which the first user has registered the three sheets. -/
def demoStore : Store :=
  { files := [salesFile, weekFile, headerOnlyFile]
    disk := demoDisk }

/-- A sheet registered by the second user. -/
def bobFile : FileUploadDoc :=
  { _id := 13, userId := 2, filename := "5-sales.xlsx", originalName := "sales.xlsx",
    path := "uploads/5-sales.xlsx",
    headers := [some "Month", some "Sales"],
    rowCount := 3, fileSize := 500, uploadedAt := 1003, analyses := [30] }

/-- An analysis of the second user, built on the second user's sheet. -/
def bobAnalysis : AnalysisDoc :=
  { _id := 30, userId := 2, fileId := 13, chartType := "line", xAxis := "Month",
    yAxis := "Sales", chartTitle := "Sales vs Month",
    chartData :=
      { labels := [some (.str "Jan"), some (.str "Feb"), some (.str "Mar")]
        datasets :=
          [ { label := "Sales"
              data := [some (.num 100), some (.num 150), some (.num 120)]
              backgroundColor := .single "rgba(255, 99, 132, 0.6)"
              borderColor := "rgba(54, 162, 235, 1)"
              borderWidth := 1 } ] },
    createdAt := 1500 }

/-- A store holding documents of both users. -/
def sharedStore : Store :=
  { files := [salesFile, bobFile]
    analyses := [bobAnalysis]
    disk := demoDisk }

/-- A build request on the sales sheet: bar chart of `Sales` by `Month`, no
title. -/
def salesBody : AnalyzeBody :=
  { fileId := some (.valid 10), chartType := some "bar", xAxis := some "Month",
    yAxis := some "Sales", chartTitle := none }

/-- A build request on the week sheet: pie chart of `Hits` by `Day`. -/
def pieBody : AnalyzeBody :=
  { fileId := some (.valid 11), chartType := some "pie", xAxis := some "Day",
    yAxis := some "Hits", chartTitle := some "Traffic" }

/-- What the environment supplies to the first build of the scenario. -/
def demoEnv : Env := { newId := 20, now := 2000 }

/-- Two registered users. -/
def demoUsers : List UserDoc :=
  [ { _id := 1, email := "alice@example.com", password := "hash-a", name := "Alice",
      role := "user", createdAt := 100 },
    { _id := 2, email := "bob@example.com", password := "hash-b", name := "Bob",
      role := "user", createdAt := 200 } ]

/-- The store of the usage scenario: two users, three files of 100, 200 and
300 bytes, five analyses. -/
def usageStore : Store :=
  { users := demoUsers
    files :=
      [ { salesFile with fileSize := 100 }, { weekFile with fileSize := 200 },
        { headerOnlyFile with fileSize := 300 } ]
    analyses := (List.range 5).map (fun i => { bobAnalysis with _id := 30 + i })
    disk := demoDisk }

/-- A store with seven users, created at times 1 to 7. -/
def crowdedStore : Store :=
  { users := (List.range 7).map (fun i =>
      { _id := 40 + i, email := "u@example.com", password := "hash", name := "U",
        role := "user", createdAt := i + 1 }) }

/-- Stand-ins for the hash, the schema validation and the token signature. -/
def demoDeps : RegisterDeps :=
  { hash := fun password => "hashed " ++ password
    accepts := fun _ => true
    sign := fun subject => "token for " ++ subject.email ++ " as " ++ subject.role }

/-- A registration with the administrator's email. -/
def adminRegistration : RegisterBody :=
  { email := some "admin@excel.com", password := some "secret", name := some "Root" }

/-- A registration with another email whose body also carries `role: admin`
and `isAdmin: true`. -/
def eagerRegistration : RegisterBody :=
  { email := some "Admin@excel.com", password := some "secret", name := some "Eve",
    role := some "admin", others := [("isAdmin", "true")] }

/-! ## The analyze handler, branch by branch -/

theorem analyzeHandler_missing (user : Subject) (body : AnalyzeBody) (env : Env) (s : Store)
    (h : requiredPresent body = false) :
    analyzeHandler user body env s = (⟨400, .message "Missing required fields"⟩, s) := by
  unfold analyzeHandler
  rw [if_pos]
  simp only [requiredPresent] at h
  revert h
  cases truthyId body.fileId <;> cases truthy body.chartType <;> cases truthy body.xAxis <;>
    cases truthy body.yAxis <;> simp

theorem requiredPresent_iff (body : AnalyzeBody) :
    requiredPresent body = true ↔
      truthyId body.fileId = true ∧ truthy body.chartType = true ∧
        truthy body.xAxis = true ∧ truthy body.yAxis = true := by
  simp [requiredPresent, and_assoc]

theorem analyzeHandler_malformed (user : Subject) (body : AnalyzeBody) (env : Env) (s : Store)
    (raw : String) (h : requiredPresent body = true) (hid : body.fileId = some (.malformed raw)) :
    analyzeHandler user body env s =
      (⟨500, .failure "Error generating analysis: " (.castError raw)⟩, s) := by
  obtain ⟨h1, h2, h3, h4⟩ := (requiredPresent_iff body).1 h
  rw [hid] at h1
  simp [analyzeHandler, h1, h2, h3, h4, hid]

theorem analyzeHandler_notFound (user : Subject) (body : AnalyzeBody) (env : Env) (s : Store)
    (fileId : ObjectId) (h : requiredPresent body = true) (hid : body.fileId = some (.valid fileId))
    (hfind : findOneFile s.files fileId user.userId = none) :
    analyzeHandler user body env s = (⟨404, .message "File not found"⟩, s) := by
  obtain ⟨h1, h2, h3, h4⟩ := (requiredPresent_iff body).1 h
  rw [hid] at h1
  simp [analyzeHandler, h1, h2, h3, h4, hid, hfind]

theorem analyzeHandler_unreadable (user : Subject) (body : AnalyzeBody) (env : Env) (s : Store)
    (fileId : ObjectId) (fileUpload : FileUploadDoc)
    (h : requiredPresent body = true) (hid : body.fileId = some (.valid fileId))
    (hfind : findOneFile s.files fileId user.userId = some fileUpload)
    (hread : readFile s.disk fileUpload.path = none) :
    analyzeHandler user body env s =
      (⟨500, .failure "Error generating analysis: " (.readError fileUpload.path)⟩, s) := by
  obtain ⟨h1, h2, h3, h4⟩ := (requiredPresent_iff body).1 h
  rw [hid] at h1
  simp [analyzeHandler, h1, h2, h3, h4, hid, hfind, hread]

theorem analyzeHandler_empty (user : Subject) (body : AnalyzeBody) (env : Env) (s : Store)
    (fileId : ObjectId) (fileUpload : FileUploadDoc) (worksheet : Worksheet)
    (h : requiredPresent body = true) (hid : body.fileId = some (.valid fileId))
    (hfind : findOneFile s.files fileId user.userId = some fileUpload)
    (hread : readFile s.disk fileUpload.path = some worksheet)
    (hdata : worksheet.records = []) :
    analyzeHandler user body env s =
      (⟨400, .message "No data available for analysis"⟩, s) := by
  obtain ⟨h1, h2, h3, h4⟩ := (requiredPresent_iff body).1 h
  rw [hid] at h1
  simp [analyzeHandler, h1, h2, h3, h4, hid, hfind, hread, hdata]

theorem analyzeHandler_columns (user : Subject) (body : AnalyzeBody) (env : Env) (s : Store)
    (fileId : ObjectId) (fileUpload : FileUploadDoc) (worksheet : Worksheet)
    (first : Record) (rest : List Record)
    (h : requiredPresent body = true) (hid : body.fileId = some (.valid fileId))
    (hfind : findOneFile s.files fileId user.userId = some fileUpload)
    (hread : readFile s.disk fileUpload.path = some worksheet)
    (hdata : worksheet.records = first :: rest)
    (hcols : hasOwnProperty first (fieldValue body.xAxis) = false ∨
      hasOwnProperty first (fieldValue body.yAxis) = false) :
    analyzeHandler user body env s =
      (⟨400, .message "Selected columns not found in data"⟩, s) := by
  obtain ⟨h1, h2, h3, h4⟩ := (requiredPresent_iff body).1 h
  rw [hid] at h1
  simp only [analyzeHandler, h1, h2, h3, h4, hid, hfind, hread, hdata]
  rcases hcols with hc | hc <;> simp [hc]

theorem analysisInvalidPath_fields (a b : AnalysisDoc) (hc : a.chartType = b.chartType)
    (hx : a.xAxis = b.xAxis) (hy : a.yAxis = b.yAxis) :
    analysisInvalidPath a = analysisInvalidPath b := by
  simp only [analysisInvalidPath, hc, hx, hy]

theorem analyzeHandler_invalid (user : Subject) (body : AnalyzeBody) (env : Env) (s : Store)
    (fileId : ObjectId) (fileUpload : FileUploadDoc) (worksheet : Worksheet)
    (first : Record) (rest : List Record) (field : String)
    (h : requiredPresent body = true) (hid : body.fileId = some (.valid fileId))
    (hfind : findOneFile s.files fileId user.userId = some fileUpload)
    (hread : readFile s.disk fileUpload.path = some worksheet)
    (hdata : worksheet.records = first :: rest)
    (hx : hasOwnProperty first (fieldValue body.xAxis) = true)
    (hy : hasOwnProperty first (fieldValue body.yAxis) = true)
    (hval : analysisInvalidPath (newAnalysis user body env fileId worksheet.records) = some field) :
    analyzeHandler user body env s =
      (⟨500, .failure "Error generating analysis: " (.validationError field)⟩, s) := by
  obtain ⟨h1, h2, h3, h4⟩ := (requiredPresent_iff body).1 h
  rw [hid] at h1
  simp only [analyzeHandler, h1, h2, h3, h4, hid, hfind, hread, hdata, hx, hy, Bool.not_true,
    Bool.or_self, Bool.false_eq_true, if_false]
  rw [hdata] at hval
  simp only [newAnalysis, buildChartData] at hval
  simp only [hval]

theorem analyzeHandler_ok (user : Subject) (body : AnalyzeBody) (env : Env) (s : Store)
    (fileId : ObjectId) (fileUpload : FileUploadDoc) (worksheet : Worksheet)
    (first : Record) (rest : List Record)
    (h : requiredPresent body = true) (hid : body.fileId = some (.valid fileId))
    (hfind : findOneFile s.files fileId user.userId = some fileUpload)
    (hread : readFile s.disk fileUpload.path = some worksheet)
    (hdata : worksheet.records = first :: rest)
    (hx : hasOwnProperty first (fieldValue body.xAxis) = true)
    (hy : hasOwnProperty first (fieldValue body.yAxis) = true)
    (hval : analysisInvalidPath (newAnalysis user body env fileId worksheet.records) = none) :
    analyzeHandler user body env s =
      (⟨200, .analysis env.newId
          (buildChartData worksheet.records (fieldValue body.chartType)
            (fieldValue body.xAxis) (fieldValue body.yAxis))
          (fieldValue body.chartType)
          (orElse body.chartTitle (fieldValue body.yAxis ++ " vs " ++ fieldValue body.xAxis))
          (fieldValue body.xAxis) (fieldValue body.yAxis)⟩,
        { s with
          analyses := s.analyses ++ [newAnalysis user body env fileId worksheet.records]
          files := pushAnalysis fileId env.newId s.files }) := by
  obtain ⟨h1, h2, h3, h4⟩ := (requiredPresent_iff body).1 h
  rw [hid] at h1
  simp only [analyzeHandler, h1, h2, h3, h4, hid, hfind, hread, hdata, hx, hy, Bool.not_true,
    Bool.or_self, Bool.false_eq_true, if_false]
  rw [hdata] at hval
  simp only [newAnalysis, buildChartData] at hval
  simp only [hval, newAnalysis, buildChartData, hdata]


theorem analysisInvalidPath_none_iff (a : AnalysisDoc) :
    analysisInvalidPath a = none ↔
      a.chartType ∈ chartTypeEnum ∧ a.xAxis ≠ "" ∧ a.yAxis ≠ "" := by
  unfold analysisInvalidPath
  by_cases h0 : a.chartType = ""
  · have hemp : "" ∉ chartTypeEnum := by decide
    simp [h0, hemp]
  · by_cases h1 : a.chartType ∈ chartTypeEnum
    · by_cases h2 : a.xAxis = ""
      · simp [h0, h1, h2]
      · by_cases h3 : a.yAxis = "" <;> simp [h0, h1, h2, h3]
    · simp [h0, h1]

theorem truthy_iff (v : Option String) : truthy v = true ↔ ∃ t, v = some t ∧ t ≠ "" := by
  cases v <;> simp [truthy]

theorem fieldValue_ne_of_truthy (v : Option String) (h : truthy v = true) : fieldValue v ≠ "" := by
  obtain ⟨t, rfl, ht⟩ := (truthy_iff v).1 h
  simpa [fieldValue] using ht

/-- Every run of the analyze handler either leaves the store alone and answers
400, 404 or 500, or it is the successful run described by `analyzeHandler_ok`. -/
theorem analyzeHandler_cases (user : Subject) (body : AnalyzeBody) (env : Env) (s : Store) :
    ((analyzeHandler user body env s).2 = s ∧
      ((analyzeHandler user body env s).1.status = 400 ∨
        (analyzeHandler user body env s).1.status = 404 ∨
        (analyzeHandler user body env s).1.status = 500)) ∨
    ∃ fileId fileUpload worksheet first rest,
      requiredPresent body = true ∧
      body.fileId = some (.valid fileId) ∧
      findOneFile s.files fileId user.userId = some fileUpload ∧
      readFile s.disk fileUpload.path = some worksheet ∧
      worksheet.records = first :: rest ∧
      hasOwnProperty first (fieldValue body.xAxis) = true ∧
      hasOwnProperty first (fieldValue body.yAxis) = true ∧
      fieldValue body.chartType ∈ chartTypeEnum ∧
      analyzeHandler user body env s =
        (⟨200, .analysis env.newId
            (buildChartData worksheet.records (fieldValue body.chartType)
              (fieldValue body.xAxis) (fieldValue body.yAxis))
            (fieldValue body.chartType)
            (orElse body.chartTitle (fieldValue body.yAxis ++ " vs " ++ fieldValue body.xAxis))
            (fieldValue body.xAxis) (fieldValue body.yAxis)⟩,
          { s with
            analyses := s.analyses ++ [newAnalysis user body env fileId worksheet.records]
            files := pushAnalysis fileId env.newId s.files }) := by
  by_cases hreq : requiredPresent body = true
  swap
  · left
    rw [analyzeHandler_missing user body env s (by simpa using hreq)]
    simp
  cases hid : body.fileId with
  | none =>
    exfalso
    have := ((requiredPresent_iff body).1 hreq).1
    rw [hid] at this
    simp [truthyId] at this
  | some arg =>
    cases arg with
    | malformed raw =>
      left
      rw [analyzeHandler_malformed user body env s raw hreq hid]
      simp
    | valid fileId =>
      cases hfind : findOneFile s.files fileId user.userId with
      | none =>
        left
        rw [analyzeHandler_notFound user body env s fileId hreq hid hfind]
        simp
      | some fileUpload =>
        cases hread : readFile s.disk fileUpload.path with
        | none =>
          left
          rw [analyzeHandler_unreadable user body env s fileId fileUpload hreq hid hfind hread]
          simp
        | some worksheet =>
          cases hdata : worksheet.records with
          | nil =>
            left
            rw [analyzeHandler_empty user body env s fileId fileUpload worksheet hreq hid hfind
              hread hdata]
            simp
          | cons first rest =>
            by_cases hx : hasOwnProperty first (fieldValue body.xAxis) = true
            swap
            · left
              rw [analyzeHandler_columns user body env s fileId fileUpload worksheet first rest
                hreq hid hfind hread hdata (Or.inl (by simpa using hx))]
              simp
            by_cases hy : hasOwnProperty first (fieldValue body.yAxis) = true
            swap
            · left
              rw [analyzeHandler_columns user body env s fileId fileUpload worksheet first rest
                hreq hid hfind hread hdata (Or.inr (by simpa using hy))]
              simp
            cases hval : analysisInvalidPath (newAnalysis user body env fileId worksheet.records) with
            | some field =>
              left
              rw [analyzeHandler_invalid user body env s fileId fileUpload worksheet first rest
                field hreq hid hfind hread hdata hx hy hval]
              simp
            | none =>
              right
              refine ⟨fileId, fileUpload, worksheet, first, rest, hreq, rfl, hfind, hread, hdata,
                hx, hy, ?_, ?_⟩
              · exact ((analysisInvalidPath_none_iff _).1 hval).1
              · rw [analyzeHandler_ok user body env s fileId fileUpload worksheet first rest
                  hreq hid hfind hread hdata hx hy hval, hdata]



/-- Success conditions of a build: a build of a file found for the user and
readable by the workbook reader answers 200 exactly when the required fields are
present, the keyed parse has a first record, that record has both selected
columns, and the chart type is in the schema's enumeration. -/
theorem analyzeHandler_ok_iff (user : Subject) (body : AnalyzeBody) (env : Env) (s : Store)
    (fileId : ObjectId) (fileUpload : FileUploadDoc) (worksheet : Worksheet)
    (hid : body.fileId = some (.valid fileId))
    (hfind : findOneFile s.files fileId user.userId = some fileUpload)
    (hread : readFile s.disk fileUpload.path = some worksheet) :
    (analyzeHandler user body env s).1.status = 200 ↔
      requiredPresent body = true ∧
      (∃ first rest, worksheet.records = first :: rest ∧
        hasOwnProperty first (fieldValue body.xAxis) = true ∧
        hasOwnProperty first (fieldValue body.yAxis) = true) ∧
      fieldValue body.chartType ∈ chartTypeEnum := by
  constructor
  · intro hok
    rcases analyzeHandler_cases user body env s with ⟨-, h⟩ | h
    · rw [hok] at h
      simp at h
    · obtain ⟨fileId', fileUpload', worksheet', first, rest, hreq, hid', hfind', hread', hdata,
        hx, hy, henum, -⟩ := h
      rw [hid] at hid'
      cases hid'
      rw [hfind] at hfind'
      cases hfind'
      rw [hread] at hread'
      cases hread'
      exact ⟨hreq, ⟨first, rest, hdata, hx, hy⟩, henum⟩
  · rintro ⟨hreq, ⟨first, rest, hdata, hx, hy⟩, henum⟩
    obtain ⟨-, -, h3, h4⟩ := (requiredPresent_iff body).1 hreq
    have hval : analysisInvalidPath (newAnalysis user body env fileId worksheet.records) = none :=
      (analysisInvalidPath_none_iff _).2
        ⟨henum, fieldValue_ne_of_truthy _ h3, fieldValue_ne_of_truthy _ h4⟩
    rw [analyzeHandler_ok user body env s fileId fileUpload worksheet first rest hreq hid hfind
      hread hdata hx hy hval]

theorem lookup_isSome_iff_mem_keys (cells : List (String × Cell)) (key : String) :
    (cells.lookup key).isSome = true ↔ key ∈ cells.map Prod.fst := by
  induction cells with
  | nil => simp
  | cons kv rest ih =>
    obtain ⟨k, v⟩ := kv
    by_cases hk : key = k
    · subst hk
      simp [List.lookup]
    · have hne : (key == k) = false := by simpa using hk
      simp [List.lookup, hne, hk, ih]

/-- The own properties of a record are `__rowNum__` and the column keys. -/
theorem hasOwnProperty_iff_mem_keys (row : Record) (key : String) :
    hasOwnProperty row key = true ↔
      key = "__rowNum__" ∨ key ∈ row.cells.map Prod.fst := by
  simp only [hasOwnProperty, Bool.or_eq_true, beq_iff_eq, lookup_isSome_iff_mem_keys]

theorem findOneFile_eq_none_of_owner (files : List FileUploadDoc) (f : FileUploadDoc)
    (userId : ObjectId) (hf : f ∈ files) (hids : (files.map (fun g => g._id)).Nodup)
    (howner : f.userId ≠ userId) : findOneFile files f._id userId = none := by
  unfold findOneFile
  rw [List.find?_eq_none]
  intro g hg hmatch
  simp only [Bool.and_eq_true, beq_iff_eq] at hmatch
  have hgf : g = f := List.inj_on_of_nodup_map hids hg hf hmatch.1
  exact howner (hgf ▸ hmatch.2)

theorem findOneFile_eq_none_of_absent (files : List FileUploadDoc) (id userId : ObjectId)
    (habs : ∀ g ∈ files, g._id ≠ id) : findOneFile files id userId = none := by
  unfold findOneFile
  rw [List.find?_eq_none]
  intro g hg hmatch
  simp only [Bool.and_eq_true, beq_iff_eq] at hmatch
  exact habs g hg hmatch.1

theorem findOneAnalysis_eq_none_of_owner (analyses : List AnalysisDoc) (a : AnalysisDoc)
    (userId : ObjectId) (ha : a ∈ analyses) (hids : (analyses.map (fun g => g._id)).Nodup)
    (howner : a.userId ≠ userId) : findOneAnalysis analyses a._id userId = none := by
  unfold findOneAnalysis
  rw [List.find?_eq_none]
  intro g hg hmatch
  simp only [Bool.and_eq_true, beq_iff_eq] at hmatch
  have hga : g = a := List.inj_on_of_nodup_map hids hg ha hmatch.1
  exact howner (hga ▸ hmatch.2)

theorem findOneAnalysis_eq_none_of_absent (analyses : List AnalysisDoc) (id userId : ObjectId)
    (habs : ∀ g ∈ analyses, g._id ≠ id) : findOneAnalysis analyses id userId = none := by
  unfold findOneAnalysis
  rw [List.find?_eq_none]
  intro g hg hmatch
  simp only [Bool.and_eq_true, beq_iff_eq] at hmatch
  exact habs g hg hmatch.1

/-- A build whose file lookup finds nothing: the store is unchanged and the
response is `Missing required fields` or `File not found`, decided by the
request alone. -/
theorem analyzeHandler_of_lookup_none (user : Subject) (body : AnalyzeBody) (env : Env)
    (s : Store) (fileId : ObjectId) (hid : body.fileId = some (.valid fileId))
    (hfind : findOneFile s.files fileId user.userId = none) :
    analyzeHandler user body env s =
      (if requiredPresent body = true then ⟨404, .message "File not found"⟩
        else ⟨400, .message "Missing required fields"⟩, s) := by
  by_cases hreq : requiredPresent body = true
  · rw [analyzeHandler_notFound user body env s fileId hreq hid hfind, if_pos hreq]
  · rw [analyzeHandler_missing user body env s (by simpa using hreq), if_neg hreq]

theorem deleteAnalysisHandler_of_lookup_none (user : Subject) (id : ObjectId) (s : Store)
    (hfind : findOneAnalysis s.analyses id user.userId = none) :
    deleteAnalysisHandler user (.valid id) s = (⟨404, .message "Analysis not found"⟩, s) := by
  simp [deleteAnalysisHandler, hfind]

theorem uploadHandler_files (user : Subject) (file : Option MulterFile) (env : Env) (s : Store) :
    (uploadHandler user file env s).2 = s ∨
    ∃ doc, (uploadHandler user file env s).2 = { s with files := s.files ++ [doc] } ∧
      doc.analyses = [] ∧ doc._id = env.newId := by
  cases file with
  | none => left; simp [uploadHandler]
  | some f =>
    cases hread : readFile s.disk f.path with
    | none => left; simp [uploadHandler, hread]
    | some worksheet =>
      cases hrows : worksheet.rows with
      | nil => left; simp [uploadHandler, hread, hrows]
      | cons d0 rest => right; simp [uploadHandler, hread, hrows]

theorem deleteAnalysisHandler_files (user : Subject) (id : IdArg) (s : Store) :
    (deleteAnalysisHandler user id s).2.files = s.files ∧
    (deleteAnalysisHandler user id s).2.disk = s.disk ∧
    (deleteAnalysisHandler user id s).2.users = s.users ∧
    (deleteAnalysisHandler user id s).2.analyses.Sublist s.analyses := by
  cases id with
  | malformed raw => simp [deleteAnalysisHandler]
  | valid analysisId =>
    cases hfind : findOneAnalysis s.analyses analysisId user.userId with
    | none => simp [deleteAnalysisHandler, hfind]
    | some a =>
      simp only [deleteAnalysisHandler, hfind]
      exact ⟨trivial, trivial, trivial, List.eraseP_sublist _⟩

theorem pushAnalysis_getElem? (fileId analysisId : ObjectId) (files : List FileUploadDoc) :
    ∀ (i : Nat) (f : FileUploadDoc), files[i]? = some f →
      ∃ f', (pushAnalysis fileId analysisId files)[i]? = some f' ∧
        f' = { f with analyses := f'.analyses } ∧ f.analyses <+: f'.analyses := by
  induction files with
  | nil => intro i f h; simp at h
  | cons g gs ih =>
    intro i f h
    unfold pushAnalysis
    by_cases hg : g._id = fileId
    · rw [if_pos hg]
      cases i with
      | zero =>
        simp only [List.getElem?_cons_zero, Option.some.injEq] at h
        subst h
        exact ⟨{ g with analyses := g.analyses ++ [analysisId] }, by simp, rfl,
          List.prefix_append _ _⟩
      | succ j =>
        simp only [List.getElem?_cons_succ] at h ⊢
        exact ⟨f, h, rfl, List.prefix_refl _⟩
    · rw [if_neg hg]
      cases i with
      | zero =>
        simp only [List.getElem?_cons_zero, Option.some.injEq] at h
        subst h
        exact ⟨g, by simp, rfl, List.prefix_refl _⟩
      | succ j =>
        simp only [List.getElem?_cons_succ] at h ⊢
        exact ih j f h

theorem pushAnalysis_split (fileId analysisId : ObjectId) (files : List FileUploadDoc)
    (hex : ∃ g ∈ files, g._id = fileId) :
    ∃ pre f post, files = pre ++ f :: post ∧ f._id = fileId ∧ (∀ g ∈ pre, g._id ≠ fileId) ∧
      pushAnalysis fileId analysisId files =
        pre ++ { f with analyses := f.analyses ++ [analysisId] } :: post := by
  induction files with
  | nil => simp at hex
  | cons g gs ih =>
    by_cases hg : g._id = fileId
    · exact ⟨[], g, gs, rfl, hg, by simp, by simp [pushAnalysis, hg]⟩
    · have hex' : ∃ g' ∈ gs, g'._id = fileId := by
        obtain ⟨g', hmem, hid⟩ := hex
        rcases List.mem_cons.1 hmem with rfl | hmem'
        · exact absurd hid hg
        · exact ⟨g', hmem', hid⟩
      obtain ⟨pre, f, post, hsplit, hf, hpre, hpush⟩ := ih hex'
      refine ⟨g :: pre, f, post, by simp [hsplit], hf, ?_, by simp [pushAnalysis, hg, hpush]⟩
      intro g' hg'
      rcases List.mem_cons.1 hg' with rfl | hmem
      · exact hg
      · exact hpre g' hmem

theorem findOneFile_some (files : List FileUploadDoc) (id userId : ObjectId) (f : FileUploadDoc)
    (h : findOneFile files id userId = some f) : f ∈ files ∧ f._id = id ∧ f.userId = userId := by
  unfold findOneFile at h
  have hp := List.find?_some h
  simp only [Bool.and_eq_true, beq_iff_eq] at hp
  exact ⟨List.mem_of_find?_eq_some h, hp.1, hp.2⟩

theorem uploadHandler_analyses (user : Subject) (file : Option MulterFile) (env : Env)
    (s : Store) : (uploadHandler user file env s).2.analyses = s.analyses := by
  rcases uploadHandler_files user file env s with h | ⟨doc, h, -, -⟩ <;> rw [h]

theorem analyzeHandler_analyses (user : Subject) (body : AnalyzeBody) (env : Env) (s : Store) :
    (analyzeHandler user body env s).2.analyses = s.analyses ∨
    ∃ saved, (analyzeHandler user body env s).2.analyses = s.analyses ++ [saved] ∧
      saved.chartType ∈ chartTypeEnum ∧ (analyzeHandler user body env s).1.status = 200 := by
  rcases analyzeHandler_cases user body env s with ⟨h, -⟩ | h
  · left
    rw [h]
  · obtain ⟨fileId, fileUpload, worksheet, first, rest, -, -, -, -, -, -, -, henum, heq⟩ := h
    right
    rw [heq]
    exact ⟨newAnalysis user body env fileId worksheet.records, rfl, henum, rfl⟩

theorem pushAnalysis_ids (fileId analysisId : ObjectId) (files : List FileUploadDoc) :
    (pushAnalysis fileId analysisId files).map (fun g => g._id) =
      files.map (fun g => g._id) := by
  induction files with
  | nil => rfl
  | cons g gs ih =>
    unfold pushAnalysis
    by_cases hg : g._id = fileId
    · simp [hg]
    · simp [hg, ih]

/-- Unique ids are an invariant of the pipeline: when the id generated for a
request is not in use, a store with pairwise distinct file ids and pairwise
distinct analysis ids is taken to such a store. -/
theorem Op.run_unique_ids (s : Store) (op : Op)
    (hfiles : (s.files.map (fun g => g._id)).Nodup)
    (hanalyses : (s.analyses.map (fun g => g._id)).Nodup)
    (hfresh : ∀ id, op.newId? = some id →
      id ∉ s.files.map (fun g => g._id) ∧ id ∉ s.analyses.map (fun g => g._id)) :
    ((op.run s).2.files.map (fun g => g._id)).Nodup ∧
    ((op.run s).2.analyses.map (fun g => g._id)).Nodup := by
  cases op with
  | upload user file env =>
    simp only [Op.run]
    rcases uploadHandler_files user file env s with h | ⟨doc, h, -, hdoc⟩
    · rw [h]
      exact ⟨hfiles, hanalyses⟩
    · rw [h]
      refine ⟨?_, hanalyses⟩
      have hnew := (hfresh env.newId rfl).1
      simp only [List.map_append, List.map_cons, List.map_nil, hdoc]
      exact List.Nodup.append hfiles (List.nodup_singleton _)
        (by simpa [List.disjoint_singleton] using hnew)
  | analyze user body env =>
    simp only [Op.run]
    rcases analyzeHandler_cases user body env s with ⟨h, -⟩ | h
    · rw [h]
      exact ⟨hfiles, hanalyses⟩
    · obtain ⟨fileId, fileUpload, worksheet, first, rest, -, -, -, -, -, -, -, -, heq⟩ := h
      rw [heq]
      refine ⟨by simpa only [pushAnalysis_ids] using hfiles, ?_⟩
      have hnew := (hfresh env.newId rfl).2
      simp only [List.map_append, List.map_cons, List.map_nil, newAnalysis]
      exact List.Nodup.append hanalyses (List.nodup_singleton _)
        (by simpa [List.disjoint_singleton] using hnew)
  | deleteAnalysis user id =>
    simp only [Op.run]
    obtain ⟨hf, -, -, hsub⟩ := deleteAnalysisHandler_files user id s
    rw [hf]
    exact ⟨hfiles, hanalyses.sublist (hsub.map _)⟩

/-- Every run of the registration handler either leaves the store alone and
answers 400 or 500, or it is the successful run: the three fields are present
and non-empty, no user has the email, and one user is added. -/
theorem registerHandler_cases (deps : RegisterDeps) (body : RegisterBody) (env : Env)
    (s : Store) :
    ((registerHandler deps body env s).2 = s ∧
      ((registerHandler deps body env s).1.status = 400 ∨
        (registerHandler deps body env s).1.status = 500)) ∨
    ∃ email password name,
      body.email = some email ∧ email ≠ "" ∧
      body.password = some password ∧ password ≠ "" ∧
      body.name = some name ∧ name ≠ "" ∧
      s.users.find? (fun u => u.email == email) = none ∧
      registerHandler deps body env s =
        (⟨201, .registered
            (deps.sign
              { userId := env.newId, email := email,
                role := if email = "admin@excel.com" then "admin" else "user" })
            { id := env.newId, email := email, name := name,
              role := if email = "admin@excel.com" then "admin" else "user" }⟩,
          { s with users := s.users ++
              [{ _id := env.newId, email := email, password := deps.hash password,
                 name := name,
                 role := if email = "admin@excel.com" then "admin" else "user",
                 createdAt := env.now }] }) := by
  by_cases he : truthy body.email = true
  swap
  · left
    simp [registerHandler, he]
  by_cases hp : truthy body.password = true
  swap
  · left
    simp [registerHandler, hp]
  by_cases hn : truthy body.name = true
  swap
  · left
    simp [registerHandler, hn]
  obtain ⟨email, hemail, hene⟩ := (truthy_iff _).1 he
  obtain ⟨password, hpassword, hpne⟩ := (truthy_iff _).1 hp
  obtain ⟨name, hname, hnne⟩ := (truthy_iff _).1 hn
  rw [hemail] at he
  rw [hpassword] at hp
  rw [hname] at hn
  cases hfind : s.users.find? (fun u => u.email == email) with
  | some existing =>
    left
    simp [registerHandler, he, hp, hn, hemail, hpassword, hname, fieldValue, hfind]
  | none =>
    cases hacc : deps.accepts
      { _id := env.newId, email := email, password := deps.hash password, name := name,
        role := if email = "admin@excel.com" then "admin" else "user",
        createdAt := env.now } with
    | false =>
      left
      simp [registerHandler, he, hp, hn, hemail, hpassword, hname, fieldValue, hfind, hacc]
    | true =>
      right
      refine ⟨email, password, name, hemail, hene, hpassword, hpne, hname, hnne, hfind, ?_⟩
      simp [registerHandler, he, hp, hn, hemail, hpassword, hname, fieldValue, hfind, hacc]

theorem registerHandler_keeps (deps : RegisterDeps) (body : RegisterBody) (env : Env)
    (s : Store) :
    (registerHandler deps body env s).2.files = s.files ∧
    (registerHandler deps body env s).2.analyses = s.analyses ∧
    (registerHandler deps body env s).2.disk = s.disk := by
  rcases registerHandler_cases deps body env s with ⟨h, -⟩ | ⟨_, _, _, -, -, -, -, -, -, -, h⟩
  · rw [h]
    exact ⟨rfl, rfl, rfl⟩
  · rw [h]
    exact ⟨rfl, rfl, rfl⟩

theorem sum_fileSize_le (files : List FileUploadDoc) (bound : Nat)
    (h : ∀ f ∈ files, f.fileSize ≤ bound) :
    (files.map (fun f => f.fileSize)).sum ≤ bound * files.length := by
  induction files with
  | nil => simp
  | cons g gs ih =>
    have hg : g.fileSize ≤ bound := h g (List.mem_cons_self _ _)
    have hgs := ih (fun f hf => h f (List.mem_cons_of_mem _ hf))
    simp only [List.map_cons, List.sum_cons, List.length_cons, Nat.mul_succ]
    omega

/-- A build that reaches the column check answers 400
`Selected columns not found in data`, and leaves the store as it was, when one
of the two selected names is neither `__rowNum__` nor a column key of the first
record. -/
theorem analyzeHandler_unknown_column (user : Subject) (body : AnalyzeBody) (env : Env)
    (s : Store) (fileId : ObjectId) (fileUpload : FileUploadDoc) (worksheet : Worksheet)
    (first : Record) (rest : List Record)
    (hreq : requiredPresent body = true)
    (hid : body.fileId = some (.valid fileId))
    (hfind : findOneFile s.files fileId user.userId = some fileUpload)
    (hread : readFile s.disk fileUpload.path = some worksheet)
    (hdata : worksheet.records = first :: rest)
    (hcols :
      (fieldValue body.xAxis ≠ "__rowNum__" ∧
        fieldValue body.xAxis ∉ first.cells.map Prod.fst) ∨
      (fieldValue body.yAxis ≠ "__rowNum__" ∧
        fieldValue body.yAxis ∉ first.cells.map Prod.fst)) :
    analyzeHandler user body env s =
      (⟨400, .message "Selected columns not found in data"⟩, s) := by
  have hcols' : hasOwnProperty first (fieldValue body.xAxis) = false ∨
      hasOwnProperty first (fieldValue body.yAxis) = false := by
    rcases hcols with ⟨h1, h2⟩ | ⟨h1, h2⟩
    · left
      rw [← Bool.not_eq_true]
      exact fun hc => ((hasOwnProperty_iff_mem_keys _ _).1 hc).elim h1 h2
    · right
      rw [← Bool.not_eq_true]
      exact fun hc => ((hasOwnProperty_iff_mem_keys _ _).1 hc).elim h1 h2
  exact analyzeHandler_columns user body env s fileId fileUpload worksheet first rest hreq hid
    hfind hread hdata hcols'

/-- Header cells that are strings (or holes) come back unchanged from the cast
to `[String]`. -/
theorem castHeaders_of_strings (d0 : Row)
    (h : ∀ cell ∈ d0, cell = none ∨ ∃ t, cell = some (.str t)) :
    (castHeaders d0).map (fun h => h.map Cell.str) = d0 := by
  simp only [castHeaders, List.map_map]
  have hid : ∀ cell ∈ d0,
      ((fun h : Option String => h.map Cell.str) ∘
        fun cell : Option Cell => cell.map castString) cell = id cell := by
    intro cell hcell
    rcases h cell hcell with rfl | ⟨t, rfl⟩ <;> simp [castString]
  rw [List.map_congr_left hid, List.map_id]

/-! ## Claims -/

/-- C1: in every successful build the response's `chartData.labels` is the
x-column read off the parsed records, one entry per record in parse order, the
single dataset's `data` is the y-column read the same way, both have as many
entries as there are parsed records, and the persisted analysis holds the same
payload. -/
theorem C1_chart_projection (user : Subject) (body : AnalyzeBody) (env : Env) (s : Store)
    (fileId : ObjectId) (fileUpload : FileUploadDoc) (worksheet : Worksheet)
    (hid : body.fileId = some (.valid fileId))
    (hfind : findOneFile s.files fileId user.userId = some fileUpload)
    (hread : readFile s.disk fileUpload.path = some worksheet)
    (hok : (analyzeHandler user body env s).1.status = 200) :
    ∃ chartData dataset saved,
      (analyzeHandler user body env s).1.body.chartData? = some chartData ∧
      chartData.labels = worksheet.records.map (fun r => getProp r (fieldValue body.xAxis)) ∧
      chartData.datasets = [dataset] ∧
      dataset.data = worksheet.records.map (fun r => getProp r (fieldValue body.yAxis)) ∧
      chartData.labels.length = worksheet.records.length ∧
      dataset.data.length = worksheet.records.length ∧
      (analyzeHandler user body env s).2.analyses = s.analyses ++ [saved] ∧
      saved.chartData = chartData := by
  rcases analyzeHandler_cases user body env s with ⟨-, h⟩ | h
  · rw [hok] at h
    simp at h
  · obtain ⟨fileId', fileUpload', worksheet', first, rest, -, hid', hfind', hread', -, -, -, -, heq⟩ := h
    rw [hid] at hid'
    cases hid'
    rw [hfind] at hfind'
    cases hfind'
    rw [hread] at hread'
    cases hread'
    rw [heq]
    exact ⟨buildChartData worksheet.records (fieldValue body.chartType) (fieldValue body.xAxis)
        (fieldValue body.yAxis),
      { label := fieldValue body.yAxis
        data := worksheet.records.map (fun r => getProp r (fieldValue body.yAxis))
        backgroundColor := getBackgroundColor (fieldValue body.chartType)
        borderColor := "rgba(54, 162, 235, 1)"
        borderWidth := 1 },
      newAnalysis user body env fileId worksheet.records,
      rfl, rfl, rfl, rfl, by simp [buildChartData], by simp, rfl, rfl⟩

/-- C1 on the scenario: the sales sheet with x = `Month` and y = `Sales` gives
labels Jan, Feb, Mar and data 100, 150, 120. -/
theorem C1_chart_projection_witness :
    (analyzeHandler alice salesBody demoEnv demoStore).1.status = 200 ∧
    (analyzeHandler alice salesBody demoEnv demoStore).1.body.chartData? =
      some
        { labels := [some (.str "Jan"), some (.str "Feb"), some (.str "Mar")]
          datasets :=
            [ { label := "Sales"
                data := [some (.num 100), some (.num 150), some (.num 120)]
                backgroundColor := .single "rgba(54, 162, 235, 0.6)"
                borderColor := "rgba(54, 162, 235, 1)"
                borderWidth := 1 } ] } ∧
    ∃ chartData dataset saved,
      (analyzeHandler alice salesBody demoEnv demoStore).1.body.chartData? = some chartData ∧
      chartData.labels = salesSheet.records.map (fun r => getProp r "Month") ∧
      chartData.datasets = [dataset] ∧
      dataset.data = salesSheet.records.map (fun r => getProp r "Sales") ∧
      chartData.labels.length = 3 ∧
      dataset.data.length = 3 ∧
      (analyzeHandler alice salesBody demoEnv demoStore).2.analyses =
        demoStore.analyses ++ [saved] ∧
      saved.chartData = chartData :=
  ⟨by decide, by decide,
    C1_chart_projection alice salesBody demoEnv demoStore 10 salesFile salesSheet rfl (by decide)
      (by decide) (by decide)⟩


/-- C2, as stated, fails: a pie build over seven labels stores the five palette
colours once; no seven-entry cycle is assigned. -/
theorem C2_counterexample :
    (analyzeHandler alice pieBody demoEnv demoStore).1.status = 200 ∧
    ((analyzeHandler alice pieBody demoEnv demoStore).1.body.chartData?.map
        (fun c => c.labels.length)) = some 7 ∧
    ((analyzeHandler alice pieBody demoEnv demoStore).1.body.chartData?.bind
        ChartData.backgroundColor?) =
      some (.palette
        [ "rgba(255, 99, 132, 0.6)", "rgba(54, 162, 235, 0.6)", "rgba(255, 206, 86, 0.6)",
          "rgba(75, 192, 192, 0.6)", "rgba(153, 102, 255, 0.6)" ]) ∧
    ((analyzeHandler alice pieBody demoEnv demoStore).1.body.chartData?.bind
        ChartData.backgroundColor?) ≠
      some (.palette
        [ "rgba(255, 99, 132, 0.6)", "rgba(54, 162, 235, 0.6)", "rgba(255, 206, 86, 0.6)",
          "rgba(75, 192, 192, 0.6)", "rgba(153, 102, 255, 0.6)",
          "rgba(255, 99, 132, 0.6)", "rgba(54, 162, 235, 0.6)" ]) := by
  decide

/-- C2, amended: in every successful pie or doughnut build the dataset's
`backgroundColor`, in the response and in the persisted analysis, is the fixed
palette of exactly five colours, whatever the number of labels. -/
theorem C2_palette_attached (user : Subject) (body : AnalyzeBody) (env : Env) (s : Store)
    (hkind : body.chartType = some "pie" ∨ body.chartType = some "doughnut")
    (hok : (analyzeHandler user body env s).1.status = 200) :
    ∃ chartData saved,
      (analyzeHandler user body env s).1.body.chartData? = some chartData ∧
      chartData.backgroundColor? = some (.palette palette5) ∧
      palette5.length = 5 ∧
      (analyzeHandler user body env s).2.analyses = s.analyses ++ [saved] ∧
      saved.chartData = chartData := by
  rcases analyzeHandler_cases user body env s with ⟨-, h⟩ | h
  · rw [hok] at h
    simp at h
  · obtain ⟨fileId, fileUpload, worksheet, first, rest, -, -, -, -, -, -, -, -, heq⟩ := h
    rw [heq]
    refine ⟨buildChartData worksheet.records (fieldValue body.chartType) (fieldValue body.xAxis)
        (fieldValue body.yAxis), newAnalysis user body env fileId worksheet.records,
      rfl, ?_, rfl, rfl, rfl⟩
    rcases hkind with hk | hk <;>
      simp [hk, fieldValue, buildChartData, ChartData.backgroundColor?, getBackgroundColor]

/-- C2 amended, on the scenario: the pie build over the seven-row sheet. -/
theorem C2_palette_attached_witness :
    (pieBody.chartType = some "pie" ∨ pieBody.chartType = some "doughnut") ∧
    (analyzeHandler alice pieBody demoEnv demoStore).1.status = 200 ∧
    ∃ chartData saved,
      (analyzeHandler alice pieBody demoEnv demoStore).1.body.chartData? = some chartData ∧
      chartData.backgroundColor? = some (.palette palette5) ∧
      palette5.length = 5 ∧
      (analyzeHandler alice pieBody demoEnv demoStore).2.analyses =
        demoStore.analyses ++ [saved] ∧
      saved.chartData = chartData :=
  ⟨Or.inl rfl, by decide,
    C2_palette_attached alice pieBody demoEnv demoStore (Or.inl rfl) (by decide)⟩

/-- C3, at the failing input: on the Month/Sales sheet a bar build with x =
`__rowNum__` and y = `Sales` selects for x a name that is no column of the
sheet and no key of any record's cells, yet the check passes on the first
record's own property `__rowNum__`: the build answers 200 with the row indices
1, 2, 3 as labels, persists an analysis and appends its id to the file's
list, where the claim has it refused with 400
`Selected columns not found in data`. -/
theorem C3_rowNum_accepted :
    salesSheet.rows.head? = some [some (.str "Month"), some (.str "Sales")] ∧
    (∀ r ∈ salesSheet.records, "__rowNum__" ∉ r.cells.map Prod.fst) ∧
    requiredPresent { salesBody with xAxis := some "__rowNum__" } = true ∧
    findOneFile demoStore.files 10 alice.userId = some salesFile ∧
    readFile demoStore.disk salesFile.path = some salesSheet ∧
    (analyzeHandler alice { salesBody with xAxis := some "__rowNum__" } demoEnv demoStore).1 ≠
      ⟨400, .message "Selected columns not found in data"⟩ ∧
    (analyzeHandler alice { salesBody with xAxis := some "__rowNum__" } demoEnv
      demoStore).1.status = 200 ∧
    ((analyzeHandler alice { salesBody with xAxis := some "__rowNum__" } demoEnv
      demoStore).1.body.chartData?.map (fun c => c.labels)) =
      some [some (.num 1), some (.num 2), some (.num 3)] ∧
    (analyzeHandler alice { salesBody with xAxis := some "__rowNum__" } demoEnv
      demoStore).2.analyses.map (fun a => (a._id, a.xAxis)) = [(20, "__rowNum__")] ∧
    (analyzeHandler alice { salesBody with xAxis := some "__rowNum__" } demoEnv
      demoStore).2.files.map (fun f => f.analyses) = [[20], [], []] := by
  decide

/-- C4, as stated, fails: for a sheet holding a header row and nothing else
(no data row, no record) the upload answers 200 and registers a file with
`rowCount` 0. -/
theorem C4_counterexample :
    headerOnlySheet.rows.drop 1 = [] ∧
    headerOnlySheet.records = [] ∧
    readFile emptyStore.disk headerOnlyUpload.path = some headerOnlySheet ∧
    (uploadHandler alice (some headerOnlyUpload) demoEnv emptyStore).1 =
      ⟨200, .uploaded 20 [some (.str "Month"), some (.str "Sales")] [] 0⟩ ∧
    (uploadHandler alice (some headerOnlyUpload) demoEnv emptyStore).2.files.length = 1 ∧
    (uploadHandler alice (some headerOnlyUpload) demoEnv emptyStore).2 ≠ emptyStore := by
  decide

/-- C4, amended: the upload answers 400 `Excel file is empty` and registers
nothing when the positional parse has no row at all; a build that has passed
the required-field check and the file lookup answers 400
`No data available for analysis` and persists nothing when the keyed parse has
no record; and a sheet whose positional parse is a single (header) row is
accepted by the upload and registered with `rowCount` 0 and that row, cast to
strings, as `headers`. -/
theorem C4_empty_file (user : Subject) (env : Env) (s : Store) :
    (∀ (f : MulterFile) (worksheet : Worksheet),
      readFile s.disk f.path = some worksheet → worksheet.rows = [] →
      uploadHandler user (some f) env s = (⟨400, .message "Excel file is empty"⟩, s)) ∧
    (∀ (body : AnalyzeBody) (fileId : ObjectId) (fileUpload : FileUploadDoc)
      (worksheet : Worksheet),
      requiredPresent body = true → body.fileId = some (.valid fileId) →
      findOneFile s.files fileId user.userId = some fileUpload →
      readFile s.disk fileUpload.path = some worksheet → worksheet.records = [] →
      analyzeHandler user body env s =
        (⟨400, .message "No data available for analysis"⟩, s)) ∧
    (∀ (f : MulterFile) (worksheet : Worksheet) (headers : Row),
      readFile s.disk f.path = some worksheet → worksheet.rows = [headers] →
      (uploadHandler user (some f) env s).1 = ⟨200, .uploaded env.newId headers [] 0⟩ ∧
      ∃ doc, (uploadHandler user (some f) env s).2.files = s.files ++ [doc] ∧
        doc.rowCount = 0 ∧ doc.headers = castHeaders headers) := by
  refine ⟨?_, ?_, ?_⟩
  · intro f worksheet hread hrows
    simp [uploadHandler, hread, hrows]
  · intro body fileId fileUpload worksheet hreq hid hfind hread hdata
    exact analyzeHandler_empty user body env s fileId fileUpload worksheet hreq hid hfind hread
      hdata
  · intro f worksheet headers hread hrows
    simp [uploadHandler, hread, hrows]

/-- C4 amended, on the scenario: the blank sheet is refused by the upload, a
build on the header-only sheet is refused, and the header-only sheet is
accepted by the upload. -/
theorem C4_empty_file_witness :
    (readFile emptyStore.disk blankUpload.path = some blankSheet ∧ blankSheet.rows = [] ∧
      uploadHandler alice (some blankUpload) demoEnv emptyStore =
        (⟨400, .message "Excel file is empty"⟩, emptyStore)) ∧
    (requiredPresent { salesBody with fileId := some (.valid 12) } = true ∧
      findOneFile demoStore.files 12 alice.userId = some headerOnlyFile ∧
      readFile demoStore.disk headerOnlyFile.path = some headerOnlySheet ∧
      headerOnlySheet.records = [] ∧
      analyzeHandler alice { salesBody with fileId := some (.valid 12) } demoEnv demoStore =
        (⟨400, .message "No data available for analysis"⟩, demoStore)) ∧
    (readFile emptyStore.disk headerOnlyUpload.path = some headerOnlySheet ∧
      headerOnlySheet.rows = [[some (.str "Month"), some (.str "Sales")]] ∧
      (uploadHandler alice (some headerOnlyUpload) demoEnv emptyStore).1 =
        ⟨200, .uploaded 20 [some (.str "Month"), some (.str "Sales")] [] 0⟩) :=
  ⟨⟨by decide, rfl,
      (C4_empty_file alice demoEnv emptyStore).1 blankUpload blankSheet (by decide) rfl⟩,
    ⟨by decide, by decide, by decide, rfl,
      (C4_empty_file alice demoEnv demoStore).2.1 { salesBody with fileId := some (.valid 12) }
        12 headerOnlyFile headerOnlySheet (by decide) rfl (by decide) (by decide) rfl⟩,
    ⟨by decide, rfl,
      ((C4_empty_file alice demoEnv emptyStore).2.2 headerOnlyUpload headerOnlySheet
        [some (.str "Month"), some (.str "Sales")] (by decide) rfl).1⟩⟩

/-- C5, as stated, fails: a build by the first user that names the second
user's file and carries no y column answers 400 `Missing required fields`, not
404: the field check runs before the lookup. -/
theorem C5_counterexample :
    alice.userId ≠ bob.userId ∧
    bobFile ∈ sharedStore.files ∧ bobFile.userId = bob.userId ∧
    ({ salesBody with fileId := some (.valid 13), yAxis := none } : AnalyzeBody).fileId =
      some (.valid bobFile._id) ∧
    (analyzeHandler alice { salesBody with fileId := some (.valid 13), yAxis := none } demoEnv
      sharedStore).1 = ⟨400, .message "Missing required fields"⟩ ∧
    (analyzeHandler alice { salesBody with fileId := some (.valid 13), yAxis := none } demoEnv
      sharedStore).1.status ≠ 404 := by
  decide

/-- C5, amended: in a store whose documents have pairwise distinct ids, for two
distinct users A and B: a build by A that names a file owned by B leaves the
store as it was, never answers 403, answers 404 `File not found` when its
required fields are present and 400 `Missing required fields` when one is
missing, and answers exactly what it answers on any store in which the id
names no file; a delete by A that names an analysis owned by B answers 404
`Analysis not found`, as it does on any store in which the id names no
analysis, and leaves the store as it was. -/
theorem C5_ownership_isolation (s : Store) (a b : Subject) (hab : a.userId ≠ b.userId)
    (hfiles : (s.files.map (fun g => g._id)).Nodup)
    (hanalyses : (s.analyses.map (fun g => g._id)).Nodup) :
    (∀ f ∈ s.files, f.userId = b.userId →
      ∀ (body : AnalyzeBody) (env : Env), body.fileId = some (.valid f._id) →
        (analyzeHandler a body env s).2 = s ∧
        (analyzeHandler a body env s).1.status ≠ 403 ∧
        (requiredPresent body = true →
          (analyzeHandler a body env s).1 = ⟨404, .message "File not found"⟩) ∧
        (requiredPresent body = false →
          (analyzeHandler a body env s).1 = ⟨400, .message "Missing required fields"⟩) ∧
        (∀ s₂ : Store, (∀ g ∈ s₂.files, g._id ≠ f._id) →
          (analyzeHandler a body env s₂).1 = (analyzeHandler a body env s).1)) ∧
    (∀ an ∈ s.analyses, an.userId = b.userId →
      deleteAnalysisHandler a (.valid an._id) s =
        (⟨404, .message "Analysis not found"⟩, s) ∧
      (∀ s₂ : Store, (∀ g ∈ s₂.analyses, g._id ≠ an._id) →
        (deleteAnalysisHandler a (.valid an._id) s₂).1 =
          (deleteAnalysisHandler a (.valid an._id) s).1)) := by
  constructor
  · intro f hf howner body env hid
    have hnone : findOneFile s.files f._id a.userId = none :=
      findOneFile_eq_none_of_owner s.files f a.userId hf hfiles
        (fun h => hab (h.symm.trans howner))
    have hrun := analyzeHandler_of_lookup_none a body env s f._id hid hnone
    refine ⟨by rw [hrun], ?_, ?_, ?_, ?_⟩
    · rw [hrun]
      by_cases hreq : requiredPresent body = true <;> simp [hreq]
    · intro hreq
      rw [hrun, if_pos hreq]
    · intro hreq
      rw [hrun, if_neg (by simp [hreq])]
    · intro s₂ habs
      rw [hrun, analyzeHandler_of_lookup_none a body env s₂ f._id hid
        (findOneFile_eq_none_of_absent s₂.files f._id a.userId habs)]
  · intro an han howner
    have hnone : findOneAnalysis s.analyses an._id a.userId = none :=
      findOneAnalysis_eq_none_of_owner s.analyses an a.userId han hanalyses
        (fun h => hab (h.symm.trans howner))
    refine ⟨deleteAnalysisHandler_of_lookup_none a an._id s hnone, ?_⟩
    intro s₂ habs
    rw [deleteAnalysisHandler_of_lookup_none a an._id s hnone,
      deleteAnalysisHandler_of_lookup_none a an._id s₂
        (findOneAnalysis_eq_none_of_absent s₂.analyses an._id a.userId habs)]

/-- C5 amended, on the scenario: the first user names the second user's file
(id 13) and the second user's analysis (id 30). -/
theorem C5_ownership_isolation_witness :
    alice.userId ≠ bob.userId ∧
    (sharedStore.files.map (fun g => g._id)).Nodup ∧
    (sharedStore.analyses.map (fun g => g._id)).Nodup ∧
    bobFile ∈ sharedStore.files ∧ bobFile.userId = bob.userId ∧
    bobAnalysis ∈ sharedStore.analyses ∧ bobAnalysis.userId = bob.userId ∧
    requiredPresent { salesBody with fileId := some (.valid 13) } = true ∧
    (analyzeHandler alice { salesBody with fileId := some (.valid 13) } demoEnv sharedStore).2 =
      sharedStore ∧
    (analyzeHandler alice { salesBody with fileId := some (.valid 13) } demoEnv sharedStore).1 =
      ⟨404, .message "File not found"⟩ ∧
    (analyzeHandler alice { salesBody with fileId := some (.valid 13) } demoEnv demoStore).1 =
      (analyzeHandler alice { salesBody with fileId := some (.valid 13) } demoEnv sharedStore).1 ∧
    (analyzeHandler alice { salesBody with fileId := some (.valid 13), yAxis := none } demoEnv
      sharedStore).1 = ⟨400, .message "Missing required fields"⟩ ∧
    deleteAnalysisHandler alice (.valid 30) sharedStore =
      (⟨404, .message "Analysis not found"⟩, sharedStore) ∧
    (deleteAnalysisHandler alice (.valid 30) demoStore).1 =
      (deleteAnalysisHandler alice (.valid 30) sharedStore).1 :=
  have h := C5_ownership_isolation sharedStore alice bob (by decide) (by decide) (by decide)
  have hb := h.1 bobFile (by decide) rfl { salesBody with fileId := some (.valid 13) } demoEnv rfl
  have hm := h.1 bobFile (by decide) rfl
    { salesBody with fileId := some (.valid 13), yAxis := none } demoEnv rfl
  have hd := h.2 bobAnalysis (by decide) rfl
  ⟨by decide, by decide, by decide, by decide, rfl, by decide, rfl, by decide,
    hb.1, hb.2.2.1 (by decide), hb.2.2.2.2 demoStore (by decide), hm.2.2.2.1 (by decide),
    hd.1, hd.2 demoStore (by decide)⟩


/-- C6: the gate lets a request through, with the verified subject attached,
exactly when the authorization header yields a non-empty token, verification
of that token succeeds with that subject and, on an admin-only route, the
subject's role is `admin`.  Otherwise it answers 401 `Access token required`
when no token is extracted, 403 `Invalid token` when verification fails and 403
`Admin access required` when the role is not `admin`; a rejected request gets
the gate's response, the store is untouched and the handler is not run, while
an accepted request gets the handler's result on the verified subject. -/
theorem C6_access_gate (verify : String → Option Subject) (adminOnly : Bool)
    (authHeader : Option String) :
    (∀ user, gate verify adminOnly authHeader = .ok user ↔
      ∃ token, bearerToken authHeader = some token ∧ token ≠ "" ∧
        verify token = some user ∧ (adminOnly = true → user.role = "admin")) ∧
    ((bearerToken authHeader = none ∨ bearerToken authHeader = some "") →
      gate verify adminOnly authHeader = .error ⟨401, .message "Access token required"⟩) ∧
    (∀ token, bearerToken authHeader = some token → token ≠ "" → verify token = none →
      gate verify adminOnly authHeader = .error ⟨403, .message "Invalid token"⟩) ∧
    (∀ token user, bearerToken authHeader = some token → token ≠ "" →
      verify token = some user → adminOnly = true → user.role ≠ "admin" →
      gate verify adminOnly authHeader = .error ⟨403, .message "Admin access required"⟩) ∧
    (∀ (handler : Subject → Store → Response × Store) (s : Store) (r : Response),
      gate verify adminOnly authHeader = .error r →
      protectedRoute verify adminOnly handler authHeader s = (r, s)) ∧
    (∀ (handler : Subject → Store → Response × Store) (s : Store) (user : Subject),
      gate verify adminOnly authHeader = .ok user →
      protectedRoute verify adminOnly handler authHeader s = handler user s) := by
  refine ⟨?_, ?_, ?_, ?_, ?_, ?_⟩
  · intro user
    cases htok : bearerToken authHeader with
    | none => simp [gate, authenticateToken, htok]
    | some token =>
      by_cases hemp : token = ""
      · simp [gate, authenticateToken, htok, hemp]
      · cases hver : verify token with
        | none => simp [gate, authenticateToken, htok, hemp, hver]
        | some u =>
          cases adminOnly with
          | false => simp [gate, authenticateToken, htok, hemp, hver]
          | true =>
            by_cases hrole : u.role = "admin"
            · simp [gate, authenticateToken, requireAdmin, htok, hemp, hver, hrole]
              rintro rfl
              exact hrole
            · simp [gate, authenticateToken, requireAdmin, htok, hemp, hver, hrole]
              rintro rfl
              exact hrole
  · rintro (h | h) <;> simp [gate, authenticateToken, h]
  · intro token htok hemp hver
    simp [gate, authenticateToken, htok, hemp, hver]
  · intro token user htok hemp hver hadmin hrole
    simp [gate, authenticateToken, requireAdmin, htok, hemp, hver, hadmin, hrole]
  · intro handler s r h
    simp [protectedRoute, h]
  · intro handler s user h
    simp [protectedRoute, h]

/-- C6 on the scenario: a user token reaches the build route and is refused by
the admin route; a missing or empty token is refused with 401, a forged one
with 403; the rejected requests leave the store alone. -/
theorem C6_access_gate_witness :
    bearerToken (some "Bearer alice-token") = some "alice-token" ∧
    gate demoVerify false (some "Bearer alice-token") = .ok alice ∧
    postAnalyze demoVerify (some "Bearer alice-token") salesBody demoEnv demoStore =
      analyzeHandler alice salesBody demoEnv demoStore ∧
    gate demoVerify false none = .error ⟨401, .message "Access token required"⟩ ∧
    gate demoVerify false (some "Bearer") = .error ⟨401, .message "Access token required"⟩ ∧
    gate demoVerify false (some "Bearer forged") = .error ⟨403, .message "Invalid token"⟩ ∧
    gate demoVerify true (some "Bearer alice-token") =
      .error ⟨403, .message "Admin access required"⟩ ∧
    getAdminUsers demoVerify (some "Bearer alice-token") demoStore =
      (⟨403, .message "Admin access required"⟩, demoStore) ∧
    gate demoVerify true (some "Bearer root-token") = .ok root :=
  have hAlice : gate demoVerify false (some "Bearer alice-token") = .ok alice :=
    ((C6_access_gate demoVerify false (some "Bearer alice-token")).1 alice).2
      ⟨"alice-token", by decide, by decide, by decide, by decide⟩
  have hDenied : gate demoVerify true (some "Bearer alice-token") =
      .error ⟨403, .message "Admin access required"⟩ :=
    (C6_access_gate demoVerify true (some "Bearer alice-token")).2.2.2.1 "alice-token" alice
      (by decide) (by decide) (by decide) rfl (by decide)
  ⟨by decide, hAlice,
    (C6_access_gate demoVerify false (some "Bearer alice-token")).2.2.2.2.2
      (fun user s => analyzeHandler user salesBody demoEnv s) demoStore alice hAlice,
    (C6_access_gate demoVerify false none).2.1 (Or.inl (by decide)),
    (C6_access_gate demoVerify false (some "Bearer")).2.1 (Or.inl (by decide)),
    (C6_access_gate demoVerify false (some "Bearer forged")).2.2.1 "forged" (by decide)
      (by decide) (by decide),
    hDenied,
    (C6_access_gate demoVerify true (some "Bearer alice-token")).2.2.2.2.1 adminUsersHandler
      demoStore _ hDenied,
    ((C6_access_gate demoVerify true (some "Bearer root-token")).1 root).2
      ⟨"root-token", by decide, by decide, by decide, by decide⟩⟩

/-- C7, as stated, fails: for a sheet whose header row holds the number 2023,
the boolean true and the string `x`, the upload registers the strings `2023`,
`true` and `x` as `headers`, which is not the row `d0` the sheet holds. -/
theorem C7_counterexample :
    readFile emptyStore.disk yearUpload.path = some yearSheet ∧
    yearSheet.rows.head? = some [some (.num 2023), some (.bool true), some (.str "x")] ∧
    (uploadHandler alice (some yearUpload) demoEnv emptyStore).1 =
      ⟨200, .uploaded 20 [some (.num 2023), some (.bool true), some (.str "x")]
        [[some (.num 1), some (.bool false), some (.str "y")]] 1⟩ ∧
    (uploadHandler alice (some yearUpload) demoEnv emptyStore).2.files.map
      (fun doc => doc.headers) = [[some "2023", some "true", some "x"]] ∧
    (uploadHandler alice (some yearUpload) demoEnv emptyStore).2.files.map
      (fun doc => doc.headers.map (fun h => h.map Cell.str)) ≠
      [[some (.num 2023), some (.bool true), some (.str "x")]] := by
  decide

/-- C7, amended: for every readable sheet whose positional parse is
`d0 :: rest`, the upload answers 200 and registers one new document whose
`headers` is `d0` with every cell cast to a string (so `d0` itself when its
cells are strings) and whose `rowCount` is `N`, where the kept rows are the
rows of `rest` of non-zero length, in sheet order, and `N` is their number; the
response carries the row `d0` as parsed, `totalRows = N` and as preview the
first `min 10 N` kept rows, which are never more than 10. -/
theorem C7_upload_postcondition (user : Subject) (f : MulterFile) (env : Env) (s : Store)
    (worksheet : Worksheet) (d0 : Row) (rest : List Row)
    (hread : readFile s.disk f.path = some worksheet)
    (hrows : worksheet.rows = d0 :: rest) :
    ∃ kept : List Row,
      kept = rest.filter (fun row => decide (row.length > 0)) ∧
      kept.Sublist rest ∧
      (∀ row, row ∈ kept ↔ row ∈ rest ∧ 0 < row.length) ∧
      uploadHandler user (some f) env s =
        (⟨200, .uploaded env.newId d0 (kept.take 10) kept.length⟩,
          { s with files := s.files ++
              [{ _id := env.newId, userId := user.userId, filename := f.filename,
                 originalName := f.originalname, path := f.path,
                 headers := castHeaders d0,
                 rowCount := kept.length, fileSize := f.size, uploadedAt := env.now,
                 analyses := [] }] }) ∧
      (castHeaders d0).length = d0.length ∧
      ((∀ cell ∈ d0, cell = none ∨ ∃ t, cell = some (.str t)) →
        (castHeaders d0).map (fun h => h.map Cell.str) = d0) ∧
      kept.take 10 <+: kept ∧
      (kept.take 10).length = min 10 kept.length ∧
      (kept.take 10).length ≤ 10 := by
  refine ⟨rest.filter (fun row => decide (row.length > 0)), rfl, List.filter_sublist _, ?_, ?_,
    ?_, castHeaders_of_strings d0, List.take_prefix _ _, List.length_take _ _, ?_⟩
  · intro row
    simp [List.mem_filter]
  · simp [uploadHandler, hread, hrows]
  · simp [castHeaders]
  · rw [List.length_take]
    exact Nat.min_le_left _ _

/-- C7 amended, on the scenario: the upload of the sales sheet; and the upload
of the long sheet, whose blank row is dropped and whose preview stops at ten
rows. -/
theorem C7_upload_postcondition_witness :
    (uploadHandler alice (some longUpload) demoEnv emptyStore).1 =
      ⟨200, .uploaded 20 [some (.str "n")]
        ((List.range 10).map (fun i => [some (.num i)])) 12⟩ ∧
    readFile emptyStore.disk salesUpload.path = some salesSheet ∧
    uploadHandler alice (some salesUpload) demoEnv emptyStore =
      (⟨200, .uploaded 20 [some (.str "Month"), some (.str "Sales")]
          [ [some (.str "Jan"), some (.num 100)],
            [some (.str "Feb"), some (.num 150)],
            [some (.str "Mar"), some (.num 120)] ] 3⟩,
        { emptyStore with files :=
            [{ _id := 20, userId := 1, filename := "1-sales.xlsx", originalName := "sales.xlsx",
               path := "uploads/1-sales.xlsx",
               headers := [some "Month", some "Sales"],
               rowCount := 3, fileSize := 500, uploadedAt := 2000, analyses := [] }] }) ∧
    ∃ kept : List Row,
      kept = salesSheet.rows.tail.filter (fun row => decide (row.length > 0)) ∧
      kept.Sublist salesSheet.rows.tail ∧
      (∀ row, row ∈ kept ↔ row ∈ salesSheet.rows.tail ∧ 0 < row.length) ∧
      uploadHandler alice (some salesUpload) demoEnv emptyStore =
        (⟨200, .uploaded demoEnv.newId [some (.str "Month"), some (.str "Sales")]
            (kept.take 10) kept.length⟩,
          { emptyStore with files := emptyStore.files ++
              [{ _id := demoEnv.newId, userId := alice.userId, filename := salesUpload.filename,
                 originalName := salesUpload.originalname, path := salesUpload.path,
                 headers := castHeaders [some (.str "Month"), some (.str "Sales")],
                 rowCount := kept.length, fileSize := salesUpload.size,
                 uploadedAt := demoEnv.now, analyses := [] }] }) ∧
      (castHeaders [some (.str "Month"), some (.str "Sales")]).length = 2 ∧
      ((∀ cell ∈ [some (Cell.str "Month"), some (Cell.str "Sales")],
          cell = none ∨ ∃ t, cell = some (.str t)) →
        (castHeaders [some (.str "Month"), some (.str "Sales")]).map
          (fun h => h.map Cell.str) = [some (.str "Month"), some (.str "Sales")]) ∧
      kept.take 10 <+: kept ∧
      (kept.take 10).length = min 10 kept.length ∧
      (kept.take 10).length ≤ 10 :=
  ⟨by decide, by decide, by decide,
    C7_upload_postcondition alice salesUpload demoEnv emptyStore salesSheet
      [some (.str "Month"), some (.str "Sales")] salesSheet.rows.tail (by decide) rfl⟩

/-- C8: for every pipeline operation, every file present before it is still
present after it, at the same position, unchanged but for its analysis-id list,
and the list before is an initial segment of the list after.  A successful
build splits the files as `pre ++ f :: post`, with `f` the file the request
names, and leaves `pre ++ f' :: post`, where the list of `f'` is the list of `f`
followed by exactly the new analysis id (the id of the one analysis it
persisted); a delete leaves every file, hence every list, as it was. -/
theorem C8_append_only (s : Store) (op : Op) :
    (∀ (i : Nat) (f : FileUploadDoc), s.files[i]? = some f →
      ∃ f', (op.run s).2.files[i]? = some f' ∧
        f' = { f with analyses := f'.analyses } ∧ f.analyses <+: f'.analyses) ∧
    (∀ user body env, op = .analyze user body env → (op.run s).1.status = 200 →
      ∃ fileId pre f post saved,
        body.fileId = some (.valid fileId) ∧ f._id = fileId ∧
        (∀ g ∈ pre, g._id ≠ fileId) ∧
        s.files = pre ++ f :: post ∧
        (op.run s).2.files =
          pre ++ { f with analyses := f.analyses ++ [env.newId] } :: post ∧
        (op.run s).2.analyses = s.analyses ++ [saved] ∧ saved._id = env.newId) ∧
    (∀ user id, op = .deleteAnalysis user id → (op.run s).2.files = s.files) := by
  refine ⟨?_, ?_, ?_⟩
  · intro i f hf
    cases op with
    | upload user file env =>
      rcases uploadHandler_files user file env s with h | ⟨doc, h, -, -⟩
      · exact ⟨f, by simp only [Op.run]; rw [h]; exact hf, rfl, List.prefix_refl _⟩
      · refine ⟨f, ?_, rfl, List.prefix_refl _⟩
        simp only [Op.run]
        rw [h]
        have hi : i < s.files.length := (List.getElem?_eq_some.1 hf).1
        simp only [List.getElem?_append_left hi]
        exact hf
    | analyze user body env =>
      rcases analyzeHandler_cases user body env s with ⟨h, -⟩ | h
      · exact ⟨f, by simp only [Op.run]; rw [h]; exact hf, rfl, List.prefix_refl _⟩
      · obtain ⟨fileId, fileUpload, worksheet, first, rest, -, -, -, -, -, -, -, -, heq⟩ := h
        simp only [Op.run]
        rw [heq]
        exact pushAnalysis_getElem? fileId env.newId s.files i f hf
    | deleteAnalysis user id =>
      refine ⟨f, ?_, rfl, List.prefix_refl _⟩
      simp only [Op.run]
      rw [(deleteAnalysisHandler_files user id s).1]
      exact hf
  · intro user body env hop hok
    subst hop
    simp only [Op.run] at hok ⊢
    rcases analyzeHandler_cases user body env s with ⟨-, h⟩ | h
    · rw [hok] at h
      simp at h
    · obtain ⟨fileId, fileUpload, worksheet, first, rest, -, hid, hfind, -, -, -, -, -, heq⟩ := h
      obtain ⟨hmem, hfid, -⟩ := findOneFile_some _ _ _ _ hfind
      obtain ⟨pre, f, post, hsplit, hf, hpre, hpush⟩ :=
        pushAnalysis_split fileId env.newId s.files ⟨fileUpload, hmem, hfid⟩
      rw [heq]
      exact ⟨fileId, pre, f, post, newAnalysis user body env fileId worksheet.records, hid, hf,
        hpre, hsplit, hpush, rfl, rfl⟩
  · intro user id hop
    subst hop
    exact (deleteAnalysisHandler_files user id s).1

/-- C8 on the scenario: a build on the sales sheet appends the new id 20 to
that file's list and to no other; deleting the second user's analysis 30
removes the analysis and leaves id 30 in the list of the file it was built
on. -/
theorem C8_append_only_witness :
    ((Op.analyze alice salesBody demoEnv).run demoStore).1.status = 200 ∧
    ((Op.analyze alice salesBody demoEnv).run demoStore).2.files =
      [{ salesFile with analyses := [20] }, weekFile, headerOnlyFile] ∧
    (∃ fileId pre f post saved,
      salesBody.fileId = some (.valid fileId) ∧ f._id = fileId ∧
      (∀ g ∈ pre, g._id ≠ fileId) ∧
      demoStore.files = pre ++ f :: post ∧
      ((Op.analyze alice salesBody demoEnv).run demoStore).2.files =
        pre ++ { f with analyses := f.analyses ++ [demoEnv.newId] } :: post ∧
      ((Op.analyze alice salesBody demoEnv).run demoStore).2.analyses =
        demoStore.analyses ++ [saved] ∧ saved._id = demoEnv.newId) ∧
    ((Op.deleteAnalysis bob (.valid 30)).run sharedStore).1.status = 200 ∧
    ((Op.deleteAnalysis bob (.valid 30)).run sharedStore).2.analyses = [] ∧
    ((Op.deleteAnalysis bob (.valid 30)).run sharedStore).2.files = sharedStore.files ∧
    (∃ f', ((Op.deleteAnalysis bob (.valid 30)).run sharedStore).2.files[1]? = some f' ∧
      f' = { bobFile with analyses := f'.analyses } ∧ [30] <+: f'.analyses) :=
  ⟨by decide, by decide,
    (C8_append_only demoStore (.analyze alice salesBody demoEnv)).2.1 alice salesBody demoEnv rfl
      (by decide),
    by decide, by decide,
    (C8_append_only sharedStore (.deleteAnalysis bob (.valid 30))).2.2 bob (.valid 30) rfl,
    (C8_append_only sharedStore (.deleteAnalysis bob (.valid 30))).1 1 bobFile (by decide)⟩

/-- C9, as stated, fails: a build that supplies the empty string as title is
given the default title, not the supplied one. -/
theorem C9_counterexample :
    ({ salesBody with chartTitle := some "" } : AnalyzeBody).chartTitle = some "" ∧
    (analyzeHandler alice { salesBody with chartTitle := some "" } demoEnv demoStore).1.status
      = 200 ∧
    (analyzeHandler alice { salesBody with chartTitle := some "" } demoEnv
      demoStore).1.body.chartTitle? = some "Sales vs Month" ∧
    (analyzeHandler alice { salesBody with chartTitle := some "" } demoEnv
      demoStore).1.body.chartTitle? ≠ some "" ∧
    (analyzeHandler alice { salesBody with chartTitle := some "" } demoEnv
      demoStore).2.analyses.map (fun a => a.chartTitle) = ["Sales vs Month"] := by
  decide

/-- C9, amended: in every successful build the returned title and the
persisted title are the same string; it is the supplied title when a non-empty
title is supplied, and it is the y column, then ` vs `, then the x column when
no title is supplied or the supplied title is the empty string. -/
theorem C9_title_default (user : Subject) (body : AnalyzeBody) (env : Env) (s : Store)
    (hok : (analyzeHandler user body env s).1.status = 200) :
    ∃ x y title saved,
      body.xAxis = some x ∧ body.yAxis = some y ∧
      (analyzeHandler user body env s).1.body.chartTitle? = some title ∧
      (analyzeHandler user body env s).2.analyses = s.analyses ++ [saved] ∧
      saved.chartTitle = title ∧
      (∀ t, body.chartTitle = some t → t ≠ "" → title = t) ∧
      ((body.chartTitle = none ∨ body.chartTitle = some "") → title = y ++ " vs " ++ x) := by
  rcases analyzeHandler_cases user body env s with ⟨-, h⟩ | h
  · rw [hok] at h
    simp at h
  · obtain ⟨fileId, fileUpload, worksheet, first, rest, hreq, -, -, -, -, -, -, -, heq⟩ := h
    obtain ⟨-, -, h3, h4⟩ := (requiredPresent_iff body).1 hreq
    obtain ⟨x, hx, -⟩ := (truthy_iff _).1 h3
    obtain ⟨y, hy, -⟩ := (truthy_iff _).1 h4
    rw [heq]
    refine ⟨x, y, orElse body.chartTitle (fieldValue body.yAxis ++ " vs " ++ fieldValue body.xAxis),
      newAnalysis user body env fileId worksheet.records, hx, hy, rfl, rfl, rfl, ?_, ?_⟩
    · intro t ht hne
      simp [orElse, truthy, fieldValue, ht, hne]
    · rintro (ht | ht) <;> simp [orElse, truthy, fieldValue, ht, hx, hy]

/-- C9 amended, on the scenario: no title gives `Sales vs Month`; the title
`Traffic` is kept. -/
theorem C9_title_default_witness :
    (analyzeHandler alice salesBody demoEnv demoStore).1.status = 200 ∧
    (analyzeHandler alice salesBody demoEnv demoStore).1.body.chartTitle? =
      some "Sales vs Month" ∧
    (analyzeHandler alice pieBody demoEnv demoStore).1.body.chartTitle? = some "Traffic" ∧
    ∃ x y title saved,
      salesBody.xAxis = some x ∧ salesBody.yAxis = some y ∧
      (analyzeHandler alice salesBody demoEnv demoStore).1.body.chartTitle? = some title ∧
      (analyzeHandler alice salesBody demoEnv demoStore).2.analyses =
        demoStore.analyses ++ [saved] ∧
      saved.chartTitle = title ∧
      (∀ t, salesBody.chartTitle = some t → t ≠ "" → title = t) ∧
      ((salesBody.chartTitle = none ∨ salesBody.chartTitle = some "") →
        title = y ++ " vs " ++ x) :=
  ⟨by decide, by decide, by decide,
    C9_title_default alice salesBody demoEnv demoStore (by decide)⟩

/-- C10: a build whose chart kind is not one of bar, line, scatter, bubble,
radar, doughnut, pie fails (400, 404 or 500) and leaves the store as it was, so
that no analysis is persisted and no id is appended to any file's list; when
nothing else is wrong with the request the failure is the 500 raised by the
schema validation of `chartType`.  Consequently every analysis in a reachable
store has its chart kind in that set. -/
theorem C10_chart_kind_closed :
    (∀ (user : Subject) (body : AnalyzeBody) (env : Env) (s : Store),
      (∀ k, body.chartType = some k →
        k ∉ ["bar", "line", "scatter", "bubble", "radar", "doughnut", "pie"]) →
      ((analyzeHandler user body env s).1.status = 400 ∨
        (analyzeHandler user body env s).1.status = 404 ∨
        (analyzeHandler user body env s).1.status = 500) ∧
      (analyzeHandler user body env s).2 = s ∧
      (analyzeHandler user body env s).2.analyses = s.analyses ∧
      (analyzeHandler user body env s).2.files = s.files ∧
      (∀ fileId fileUpload worksheet first rest,
        requiredPresent body = true → body.fileId = some (.valid fileId) →
        findOneFile s.files fileId user.userId = some fileUpload →
        readFile s.disk fileUpload.path = some worksheet →
        worksheet.records = first :: rest →
        hasOwnProperty first (fieldValue body.xAxis) = true →
        hasOwnProperty first (fieldValue body.yAxis) = true →
        (analyzeHandler user body env s).1 =
          ⟨500, .failure "Error generating analysis: " (.validationError "chartType")⟩)) ∧
    (∀ s : Store, Reachable s →
      ∀ a ∈ s.analyses,
        a.chartType ∈ ["bar", "line", "scatter", "bubble", "radar", "doughnut", "pie"]) := by
  constructor
  · intro user body env s hkind
    have hnot : fieldValue body.chartType ∉ chartTypeEnum := by
      cases hct : body.chartType with
      | none => simp only [fieldValue]; decide
      | some k => exact hkind k hct
    have hcases := analyzeHandler_cases user body env s
    have hfail : (analyzeHandler user body env s).2 = s ∧
        ((analyzeHandler user body env s).1.status = 400 ∨
          (analyzeHandler user body env s).1.status = 404 ∨
          (analyzeHandler user body env s).1.status = 500) := by
      rcases hcases with h | h
      · exact h
      · obtain ⟨_, _, _, _, _, -, -, -, -, -, -, -, henum, -⟩ := h
        exact absurd henum hnot
    refine ⟨hfail.2, hfail.1, by rw [hfail.1], by rw [hfail.1], ?_⟩
    intro fileId fileUpload worksheet first rest hreq hid hfind hread hdata hx hy
    have hval : analysisInvalidPath (newAnalysis user body env fileId worksheet.records) =
        some "chartType" := by
      simp only [analysisInvalidPath, newAnalysis]
      by_cases h0 : fieldValue body.chartType = ""
      · simp [h0]
      · simp [h0, hnot]
    rw [analyzeHandler_invalid user body env s fileId fileUpload worksheet first rest "chartType"
      hreq hid hfind hread hdata hx hy hval]
  · intro s hs
    show ∀ a ∈ s.analyses, a.chartType ∈ chartTypeEnum
    induction hs with
    | init => intro a ha; simp at ha
    | stored s disk _ ih => exact ih
    | registered s deps body env _ ih =>
      intro a ha
      rw [(registerHandler_keeps deps body env s).2.1] at ha
      exact ih a ha
    | served s op _ ih =>
      intro a ha
      cases op with
      | upload user file env =>
        simp only [Op.run, uploadHandler_analyses] at ha
        exact ih a ha
      | analyze user body env =>
        simp only [Op.run] at ha
        rcases analyzeHandler_analyses user body env s with h | ⟨saved, h, henum, -⟩
        · rw [h] at ha
          exact ih a ha
        · rw [h] at ha
          rcases List.mem_append.1 ha with ha' | ha'
          · exact ih a ha'
          · rw [List.mem_singleton.1 ha']
            exact henum
      | deleteAnalysis user id =>
        simp only [Op.run] at ha
        exact ih a ((deleteAnalysisHandler_files user id s).2.2.2.subset ha)

/-- C10 on the scenario: a `histogram` build on the sales sheet is refused by
the schema validation and changes nothing; in the store reached by an upload
followed by a bar build, the persisted analysis has its kind in the set. -/
theorem C10_chart_kind_closed_witness :
    (analyzeHandler alice { salesBody with chartType := some "histogram" } demoEnv demoStore).1 =
      ⟨500, .failure "Error generating analysis: " (.validationError "chartType")⟩ ∧
    (analyzeHandler alice { salesBody with chartType := some "histogram" } demoEnv demoStore).2 =
      demoStore ∧
    Reachable ((Op.analyze alice { salesBody with fileId := some (.valid 20) } ⟨21, 2001⟩).run
      ((Op.upload alice (some salesUpload) demoEnv).run emptyStore).2).2 ∧
    ((Op.analyze alice { salesBody with fileId := some (.valid 20) } ⟨21, 2001⟩).run
      ((Op.upload alice (some salesUpload) demoEnv).run emptyStore).2).2.analyses.map
        (fun a => a.chartType) = ["bar"] ∧
    ∀ a ∈ ((Op.analyze alice { salesBody with fileId := some (.valid 20) } ⟨21, 2001⟩).run
      ((Op.upload alice (some salesUpload) demoEnv).run emptyStore).2).2.analyses,
      a.chartType ∈ ["bar", "line", "scatter", "bubble", "radar", "doughnut", "pie"] :=
  have hbad := C10_chart_kind_closed.1 alice { salesBody with chartType := some "histogram" }
    demoEnv demoStore (by decide)
  have hreach : Reachable
      ((Op.analyze alice { salesBody with fileId := some (.valid 20) } ⟨21, 2001⟩).run
        ((Op.upload alice (some salesUpload) demoEnv).run emptyStore).2).2 :=
    Reachable.served _ _ (Reachable.served _ _ (Reachable.stored {} demoDisk Reachable.init))
  ⟨hbad.2.2.2.2 10 salesFile salesSheet ⟨1, [("Month", .str "Jan"), ("Sales", .num 100)]⟩ _
      (by decide) rfl (by decide) (by decide) rfl (by decide) (by decide),
    hbad.2.1, hreach, by decide, C10_chart_kind_closed.2 _ hreach⟩

/-- C11: the usage handler answers 200 and leaves the store as it was;
`totalUsers`, `totalFiles` and `totalAnalyses` are the numbers of user, file
and analysis documents, `totalStorage` is the sum of the `fileSize` of all
file documents (0 when there is none, and at most the upload ceiling times the
number of files when every file respects the ceiling), and `recentUsers` has
`min 5 totalUsers` entries, hence at most 5, each taken from a user document,
newest first. -/
theorem C11_admin_usage (user : Subject) (s : Store) :
    ∃ recentUsers,
      adminUsageHandler user s =
        (⟨200, .usage s.users.length s.files.length s.analyses.length
            ((s.files.map (fun f => f.fileSize)).sum) recentUsers⟩, s) ∧
      (s.files = [] → (s.files.map (fun f => f.fileSize)).sum = 0) ∧
      ((∀ f ∈ s.files, f.fileSize ≤ 10 * 1024 * 1024) →
        (s.files.map (fun f => f.fileSize)).sum ≤ 10 * 1024 * 1024 * s.files.length) ∧
      recentUsers.length = min 5 s.users.length ∧
      recentUsers.length ≤ 5 ∧
      (∀ r ∈ recentUsers, ∃ u ∈ s.users,
        r = { _id := u._id, name := u.name, email := u.email, createdAt := u.createdAt }) ∧
      recentUsers.Pairwise (fun a b => b.createdAt ≤ a.createdAt) := by
  refine ⟨findRecentUsers s.users, ?_, ?_, ?_, ?_, ?_, ?_, ?_⟩
  · cases hfiles : s.files with
    | nil => simp [adminUsageHandler, aggregateTotalSize, hfiles]
    | cons g gs =>
      simp only [adminUsageHandler, aggregateTotalSize, hfiles, List.getElem?_cons_zero]
      rw [show ∀ n : Nat, (if n = 0 then 0 else n) = n from
        fun n => by by_cases h : n = 0 <;> simp [h]]
  · intro h
    simp [h]
  · exact sum_fileSize_le s.files _
  · simp [findRecentUsers, List.length_insertionSort]
  · simp only [findRecentUsers, List.length_map, List.length_take]
    exact Nat.min_le_left _ _
  · intro r hr
    simp only [findRecentUsers, List.mem_map] at hr
    obtain ⟨u, hu, rfl⟩ := hr
    exact ⟨u, (List.mem_insertionSort newerFirst).1 (List.mem_of_mem_take hu), rfl⟩
  · simp only [findRecentUsers, List.pairwise_map]
    exact (List.sorted_insertionSort newerFirst s.users).sublist (List.take_sublist _ _)

/-- C11 on the scenario: two users, three files of 100, 200 and 300 bytes and
five analyses give `totalStorage` 600, `totalFiles` 3, `totalAnalyses` 5 and
`totalUsers` 2; the empty store gives `totalStorage` 0; of seven users the
five newest are listed. -/
theorem C11_admin_usage_witness :
    adminUsageHandler root usageStore =
      (⟨200, .usage 2 3 5 600
        [ { _id := 2, name := "Bob", email := "bob@example.com", createdAt := 200 },
          { _id := 1, name := "Alice", email := "alice@example.com", createdAt := 100 } ]⟩,
        usageStore) ∧
    (∃ recentUsers, adminUsageHandler root emptyStore =
      (⟨200, .usage 0 0 0 0 recentUsers⟩, emptyStore)) ∧
    (adminUsageHandler root crowdedStore).1 =
      ⟨200, .usage 7 0 0 0 ((List.range 5).map (fun i =>
        { _id := 46 - i, name := "U", email := "u@example.com", createdAt := 7 - i }))⟩ ∧
    getAdminUsage demoVerify (some "Bearer alice-token") usageStore =
      (⟨403, .message "Admin access required"⟩, usageStore) ∧
    getAdminUsage demoVerify (some "Bearer root-token") usageStore =
      adminUsageHandler root usageStore ∧
    ∃ recentUsers,
      adminUsageHandler root usageStore =
        (⟨200, .usage usageStore.users.length usageStore.files.length
            usageStore.analyses.length ((usageStore.files.map (fun f => f.fileSize)).sum)
            recentUsers⟩, usageStore) ∧
      (usageStore.files = [] → (usageStore.files.map (fun f => f.fileSize)).sum = 0) ∧
      ((∀ f ∈ usageStore.files, f.fileSize ≤ 10 * 1024 * 1024) →
        (usageStore.files.map (fun f => f.fileSize)).sum ≤
          10 * 1024 * 1024 * usageStore.files.length) ∧
      recentUsers.length = min 5 usageStore.users.length ∧
      recentUsers.length ≤ 5 ∧
      (∀ r ∈ recentUsers, ∃ u ∈ usageStore.users,
        r = { _id := u._id, name := u.name, email := u.email, createdAt := u.createdAt }) ∧
      recentUsers.Pairwise (fun a b => b.createdAt ≤ a.createdAt) :=
  ⟨by decide,
    (C11_admin_usage root emptyStore).imp (fun _ h => h.1),
    by decide, by decide, by decide,
    C11_admin_usage root usageStore⟩

/-- C12: in every successful registration (201) one user is created; its role,
the role in the response and the role in the subject the token is signed for
are the same string, which is `admin` exactly when the submitted email is the
string `admin@excel.com` and `user` exactly when it is not.  Any successful
registration with the same `email` member, whatever the other members of the
body, the collaborators, the environment and the store, creates a user with
the same role. -/
theorem C12_role_assignment (deps : RegisterDeps) (body : RegisterBody) (env : Env)
    (s : Store) (hok : (registerHandler deps body env s).1.status = 201) :
    ∃ email token info created,
      body.email = some email ∧
      (registerHandler deps body env s).1.body = .registered token info ∧
      (registerHandler deps body env s).2.users = s.users ++ [created] ∧
      created.email = email ∧
      info.role = created.role ∧
      token = deps.sign ⟨created._id, created.email, created.role⟩ ∧
      (∀ verify : String → Option Subject,
        (∀ subject, verify (deps.sign subject) = some subject) →
        (verify token).map (fun subject => subject.role) = some created.role) ∧
      (created.role = "admin" ↔ email = "admin@excel.com") ∧
      (created.role = "user" ↔ email ≠ "admin@excel.com") ∧
      (∀ (deps' : RegisterDeps) (body' : RegisterBody) (env' : Env) (s' : Store),
        body'.email = body.email →
        (registerHandler deps' body' env' s').1.status = 201 →
        ∃ created', (registerHandler deps' body' env' s').2.users = s'.users ++ [created'] ∧
          created'.role = created.role) := by
  rcases registerHandler_cases deps body env s with ⟨-, h⟩ | h
  · rw [hok] at h
    simp at h
  · obtain ⟨email, password, name, hemail, -, -, -, -, -, -, heq⟩ := h
    rw [heq]
    refine ⟨email, _, _, _, hemail, rfl, rfl, rfl, rfl, rfl, ?_, ?_, ?_, ?_⟩
    · intro verify hround
      rw [hround]
      rfl
    · by_cases hadmin : email = "admin@excel.com" <;> simp [hadmin]
    · by_cases hadmin : email = "admin@excel.com" <;> simp [hadmin]
    · intro deps' body' env' s' hsame hok'
      rcases registerHandler_cases deps' body' env' s' with ⟨-, h'⟩ | h'
      · rw [hok'] at h'
        simp at h'
      · obtain ⟨email', password', name', hemail', -, -, -, -, -, -, heq'⟩ := h'
        rw [hsame, hemail] at hemail'
        cases hemail'
        rw [heq']
        exact ⟨_, rfl, rfl⟩

/-- C12 on the scenario: registering `admin@excel.com` creates an `admin`;
registering `Admin@excel.com` with `role: admin` in the body creates a
`user`. -/
theorem C12_role_assignment_witness :
    (registerHandler demoDeps adminRegistration demoEnv emptyStore).1 =
      ⟨201, .registered "token for admin@excel.com as admin"
        { id := 20, email := "admin@excel.com", name := "Root", role := "admin" }⟩ ∧
    (registerHandler demoDeps eagerRegistration demoEnv emptyStore).1 =
      ⟨201, .registered "token for Admin@excel.com as user"
        { id := 20, email := "Admin@excel.com", name := "Eve", role := "user" }⟩ ∧
    (registerHandler demoDeps eagerRegistration demoEnv emptyStore).2.users.map
      (fun u => u.role) = ["user"] ∧
    ∃ email token info created,
      adminRegistration.email = some email ∧
      (registerHandler demoDeps adminRegistration demoEnv emptyStore).1.body =
        .registered token info ∧
      (registerHandler demoDeps adminRegistration demoEnv emptyStore).2.users =
        emptyStore.users ++ [created] ∧
      created.email = email ∧
      info.role = created.role ∧
      token = demoDeps.sign ⟨created._id, created.email, created.role⟩ ∧
      (∀ verify : String → Option Subject,
        (∀ subject, verify (demoDeps.sign subject) = some subject) →
        (verify token).map (fun subject => subject.role) = some created.role) ∧
      (created.role = "admin" ↔ email = "admin@excel.com") ∧
      (created.role = "user" ↔ email ≠ "admin@excel.com") ∧
      (∀ (deps' : RegisterDeps) (body' : RegisterBody) (env' : Env) (s' : Store),
        body'.email = adminRegistration.email →
        (registerHandler deps' body' env' s').1.status = 201 →
        ∃ created', (registerHandler deps' body' env' s').2.users = s'.users ++ [created'] ∧
          created'.role = created.role) :=
  ⟨by decide, by decide, by decide,
    C12_role_assignment demoDeps adminRegistration demoEnv emptyStore (by decide)⟩

end ExcelAnalysis
